import Mathlib

/-!
# Kernel emitter of nnfusion: a shallow embedding

Embedding of `src/nnfusion/core/kernels/kernel_emitter.cpp`.

* C++ objects that are only read are Lean structures (`Tensor`, `GNode`, `KernelContext`).
* `shared_ptr<FunctionUnit>` is an index into `Store.functions` (`none` is the null pointer),
  because an artifact is shared and its call slot is assigned after creation.
* A `LanguageUnit` is a value that carries the address it was created at; no path of the
  emitter writes to a unit once `emit_source` has returned, so the six slots of a
  `FunctionUnit` hold the units themselves.
* `NNFUSION_CHECK...` failures and accesses through a null pointer are the two `Outcome`
  faults; `nullptr` results are `Option`.
* The virtual hooks `emit_function_body` and `emit_dependency` are parameters (`Hooks`).
-/

namespace nnfusion

/-! ## Outcomes -/

/-- Result of running a piece of the emitter: a value, a failed `NNFUSION_CHECK`
(fatal), or a member access through a null pointer. -/
inductive Outcome (α : Type) where
  | ok : α → Outcome α
  | check_failed : Outcome α
  | invalid_pointer : Outcome α
  deriving DecidableEq, Repr

/-! ## Strings -/

/-- The position of the first occurrence of `pat` in `hay` (`std::string::find` on the
characters), `none` for `npos`. -/
def find_chars (hay pat : List Char) : Option Nat :=
  match hay with
  | [] => if pat.isEmpty then some 0 else none
  | c :: cs =>
    if pat.isPrefixOf (c :: cs) then some 0 else (find_chars cs pat).map (· + 1)

/-- The call `s.find(pat)` of `std::string`; `none` is `string::npos`. -/
def find (s pat : String) : Option Nat := find_chars s.data pat.data

/-- Modelled from the spec: the helper `join` (declared in the utility header, which is not
among the sources): the elements "joined by a fixed separator". -/
def join (v : List String) (sep : String) : String := sep.intercalate v

/-! ## Data model -/

/-- The type `element::Type`, of which the emitter reads `c_type_string()` only. -/
structure ElementType where
  c_type_string : String
  deriving DecidableEq, Repr

abbrev Shape := List Nat

/-- The enumeration `NNFusion_DeviceType`, as its numeric code. -/
abbrev NNFusion_DeviceType := Nat

/-- The class `descriptor::Tensor`: the arguments of its constructor. -/
structure Tensor where
  element_type : ElementType
  shape : Shape
  name : String
  device_type : NNFusion_DeviceType
  is_persistent : Bool
  is_constant : Bool
  is_parameter : Bool
  is_RDMA_tensor : Bool
  group : String
  device_id : Int
  deriving DecidableEq, Repr

/-- The class `async::Stream`: its name and its map from handle name to symbol. -/
structure Stream where
  name : String
  binding_symbol : List (String × String)
  deriving DecidableEq, Repr

/-- The class `async::AsyncExecutionInfo`; `execution_stream` may be null. -/
structure AsyncExecutionInfo where
  execution_stream : Option Stream
  deriving DecidableEq, Repr

/-- The operator annotations of a node, as a handle (they are copied, never read). -/
abbrev OpAnnotations := Option Nat

/-- What the emitter reads of a `graph::GNode`: `get_op_type()`,
`get_op_ptr()->get_unique_name()`, the input and output tensor pointers (`none` is a
null pointer), the attribute `"Async_info"` (`none` when it is not valid) and
`get_op_ptr()->get_op_annotations()`. -/
structure GNode where
  op_type : String
  unique_name : String
  input_tensors : List (Option Tensor)
  output_tensors : List (Option Tensor)
  async_info : Option AsyncExecutionInfo
  op_annotations : OpAnnotations
  deriving DecidableEq, Repr

/-- The class `KernelContext`. -/
structure KernelContext where
  gnode : GNode
  gpu_num_sm : Nat
  inputs : List Tensor
  outputs : List Tensor
  tensors : List Tensor
  input_names : List String
  output_names : List String
  tensor_names : List String
  dtypes : List String
  annotations : OpAnnotations
  deriving DecidableEq, Repr

/-- Modelled from the spec: the class `LanguageUnit` (the spec's CodeUnit; its header is not
among the sources): "identifier string, an accumulating text buffer, a set of other
CodeUnits it depends on (the required set), and a staging map of symbol-name → CodeUnit".
A unit is referred to by the address it was created at. -/
structure LanguageUnit where
  addr : Nat
  symbol : String
  code : String
  required : List Nat
  local_symbol : List (String × Nat)
  deriving DecidableEq, Repr

/-- The class `FunctionUnit`: six unit slots, null after `new FunctionUnit()`. -/
structure FunctionUnit where
  name_unit : Option LanguageUnit := none
  signature_unit : Option LanguageUnit := none
  body_unit : Option LanguageUnit := none
  call_unit : Option LanguageUnit := none
  dep_unit : Option LanguageUnit := none
  comment_unit : Option LanguageUnit := none
  deriving DecidableEq, Repr

/-- A `FunctionUnit_p`: `none` is null, `some p` is the artifact `Store.functions[p]`. -/
abbrev FunctionUnit_p := Option Nat

/-- The state outside the emitter: the artifacts allocated so far, the next free unit
address, the map `kernel_definitions`, the flag `FLAGS_fextern_result_memory`, and a ghost
counter of the invocations of the body-generation hook. -/
structure Store where
  functions : List FunctionUnit
  next_addr : Nat
  kernel_definitions : List (String × FunctionUnit_p)
  FLAGS_fextern_result_memory : Bool
  body_hook_calls : Nat
  deriving DecidableEq, Repr

/-- The class `KernelEmitter` (its context is held by value). -/
structure KernelEmitter where
  m_context : KernelContext
  m_is_emitted : Bool
  m_kernel_type : String
  m_kernel_name : String
  m_function_unit : FunctionUnit_p
  m_intra_op_parallelism : Bool
  deriving DecidableEq, Repr

/-- The arguments of one call of `allocate_tensor`. -/
structure AllocArgs where
  shape : Shape
  elt : ElementType
  name : String
  device_type : NNFusion_DeviceType
  is_persistent : Bool
  is_constant : Bool
  is_parameter : Bool
  is_RDMA_tensor : Bool
  group : String
  device_id : Int
  deriving DecidableEq, Repr

/-- What a generation hook does: the calls of `allocate_tensor` it makes, in order, and the
unit it returns (`none` is `nullptr`); the address of the unit is given on return. -/
structure HookResult where
  allocations : List AllocArgs
  unit : Option LanguageUnit
  deriving DecidableEq, Repr

/-- The virtual members `emit_function_body` and `emit_dependency`, which subclasses define:
each reads the emitter and answers with a `HookResult`. -/
structure Hooks where
  emit_function_body : KernelEmitter → HookResult
  emit_dependency : KernelEmitter → HookResult

/-! ## Language units -/

/-- The expression `new LanguageUnit(symbol)`: an empty unit at the next free address. -/
def new_LanguageUnit (s : Store) (symbol : String) : LanguageUnit × Store :=
  ({ addr := s.next_addr, symbol := symbol, code := "", required := [], local_symbol := [] },
   { s with next_addr := s.next_addr + 1 })

/-- The operator `lu << text`: append to the buffer. -/
def LanguageUnit.write (lu : LanguageUnit) (text : String) : LanguageUnit :=
  { lu with code := lu.code ++ text }

/-- Modelled from the spec: `LanguageUnit::require(unit)`, "declare a required CodeUnit
(added to the required set, idempotent)"; the flag returned reports success. -/
def LanguageUnit.require (lu : LanguageUnit) (p : Nat) : Bool × LanguageUnit :=
  (true, if p ∈ lu.required then lu else { lu with required := lu.required ++ [p] })

/-- Modelled from the spec: `LanguageUnit::clean_require()`, "promote all staged symbols into
the required set and clear the staging area". -/
def LanguageUnit.clean_require (lu : LanguageUnit) : LanguageUnit :=
  { (lu.local_symbol.foldl (fun u it => (u.require it.2).2) lu) with local_symbol := [] }

/-! ## KernelContext and KernelEmitter construction -/

/-- The two extraction loops of the constructor of `KernelContext`: each tensor pointer is
checked by `NNFUSION_CHECK_NOT_NULLPTR`, then pushed with its name. -/
def extract_tensors :
    List (Option Tensor) → List Tensor → List String → Outcome (List Tensor × List String)
  | [], tensors, names => .ok (tensors, names)
  | none :: _, _, _ => .check_failed
  | some tv :: rest, tensors, names => extract_tensors rest (tensors ++ [tv]) (names ++ [tv.name])

/-- The constructor `KernelContext::KernelContext(gnode)`. -/
def KernelContext.create (gnode : GNode) : Outcome KernelContext :=
  match extract_tensors gnode.input_tensors [] [] with
  | .check_failed => .check_failed
  | .invalid_pointer => .invalid_pointer
  | .ok (inputs, input_names) =>
    match extract_tensors gnode.output_tensors [] [] with
    | .check_failed => .check_failed
    | .invalid_pointer => .invalid_pointer
    | .ok (outputs, output_names) =>
      let dtypes := inputs.foldl (fun d arg => d ++ [arg.element_type.c_type_string]) []
      let dtypes := outputs.foldl (fun d out => d ++ [out.element_type.c_type_string]) dtypes
      .ok { gnode := gnode, gpu_num_sm := 20,
            inputs := inputs, outputs := outputs, tensors := [],
            input_names := input_names, output_names := output_names, tensor_names := [],
            dtypes := dtypes, annotations := gnode.op_annotations }

/-- The constructor `KernelEmitter::KernelEmitter(ctx)`. -/
def KernelEmitter.create (ctx : KernelContext) : KernelEmitter :=
  { m_context := ctx, m_is_emitted := false, m_kernel_type := "", m_kernel_name := "",
    m_function_unit := none, m_intra_op_parallelism := false }

/-- The constructor `KernelEmitter::KernelEmitter(ctx, kernel_type)`. -/
def KernelEmitter.create_typed (ctx : KernelContext) (kernel_type : String) : KernelEmitter :=
  { m_context := ctx, m_is_emitted := false, m_kernel_type := kernel_type, m_kernel_name := "",
    m_function_unit := none, m_intra_op_parallelism := false }

/-! ## Name and signature -/

/-- The member `KernelEmitter::emit_function_name`. -/
def emit_function_name (e : KernelEmitter) (s : Store) : LanguageUnit × Store :=
  let (lu, s) := new_LanguageUnit s "function_name"
  let lu := lu.write (e.m_context.gnode.op_type ++ "_" ++ join e.m_context.dtypes "_" ++ "_"
    ++ e.m_kernel_type ++ "_" ++ e.m_context.gnode.unique_name)
  (lu, s)

/-- The parameter list `params` built by the three loops of `emit_function_signature`
(`enum` pairs each tensor with its index `i`). -/
def signature_params (e : KernelEmitter) (s : Store) : List String :=
  let idx := find e.m_kernel_name "Result"
  let params : List String := []
  let params := e.m_context.inputs.enum.foldl (fun params it =>
    params ++ [it.2.element_type.c_type_string ++ "* " ++ "input" ++ toString it.1]) params
  let params := e.m_context.outputs.enum.foldl (fun params it =>
    params ++ [(if idx = none ∨ s.FLAGS_fextern_result_memory = true
        then it.2.element_type.c_type_string ++ "* "
        else it.2.element_type.c_type_string ++ "** ")
      ++ "output" ++ toString it.1]) params
  let params := e.m_context.tensors.enum.foldl (fun params it =>
    params ++ [it.2.element_type.c_type_string ++ "* " ++ it.2.name]) params
  params

/-- The member `KernelEmitter::emit_function_signature`. -/
def emit_function_signature (e : KernelEmitter) (s : Store) : LanguageUnit × Store :=
  let params := signature_params e s
  let (lu, s) := new_LanguageUnit s (e.m_kernel_name ++ "_sig")
  let lu := lu.write ("void " ++ "(" ++ join params ", " ++ ")")
  (lu, s)

/-! ## Call site and comments -/

/-- One library handle of `emit_function_call`: if the signature text names the handle type,
`NNFUSION_CHECK` that the binding has the handle and write its symbol and `", "`. -/
def handle_argument (sig_code type_name handle : String) (binding_symbol : List (String × String))
    (text : String) : Outcome String :=
  if find sig_code type_name ≠ none then
    match binding_symbol.lookup handle with
    | none => .check_failed
    | some symbol => .ok (text ++ symbol ++ ", ")
  else .ok text

/-- The leading arguments written by `emit_function_call` for a stream that is present:
the stream name if the signature text names `cudaStream_t`, then the two library handles. -/
def stream_arguments (sig_code : String) (stream : Stream) : Outcome String :=
  let text := if find sig_code "cudaStream_t" ≠ none then stream.name ++ ", " else ""
  let binding_symbol := stream.binding_symbol
  match handle_argument sig_code "cudnnHandle_t" "cudnn_handle" binding_symbol text with
  | .check_failed => .check_failed
  | .invalid_pointer => .invalid_pointer
  | .ok text => handle_argument sig_code "cublasHandle_t" "cublas_handle" binding_symbol text

/-- The block `if (m_function_unit != nullptr) ...` of `emit_function_call`: the text
written between `"("` and the joined names. -/
def leading_arguments (e : KernelEmitter) (s : Store) : Outcome String :=
  let gnode := e.m_context.gnode
  match e.m_function_unit with
  | none => .ok ""
  | some p =>
    match s.functions[p]? with
    | none => .invalid_pointer
    | some fu =>
      match fu.signature_unit with
      | none => .check_failed
      | some sig_unit =>
        match gnode.async_info with
        | none => .ok ""
        | some async_info =>
          match async_info.execution_stream with
          | none => .ok ""
          | some stream => stream_arguments sig_unit.code stream

/-- The member `KernelEmitter::emit_function_call`. -/
def emit_function_call (e : KernelEmitter) (s : Store) : Outcome (LanguageUnit × Store) :=
  let (lu, s1) := new_LanguageUnit s (e.m_kernel_name ++ "_call")
  let names : List String := []
  let names := names ++ e.m_context.input_names
  let names := names ++ e.m_context.output_names
  let names := names ++ e.m_context.tensor_names
  let lu := lu.write "("
  match leading_arguments e s with
  | .check_failed => .check_failed
  | .invalid_pointer => .invalid_pointer
  | .ok leading =>
    let lu := lu.write leading
    let lu := lu.write (join names ", " ++ ");\n")
    .ok (lu, s1)

/-- Modelled from the spec: the text of a shape written to a unit (the stream operator of
`Shape` is not among the sources); the comment block gives each tensor its "shape". -/
def shape_to_string (shape : Shape) : String :=
  "Shape\x7b" ++ join (shape.map toString) ", " ++ "\x7d"

/-- One line of the comment block: name, type and shape of a tensor. -/
def comment_line (t : Tensor) : String :=
  "//\t- name: " ++ t.name ++ "\ttype: " ++ t.element_type.c_type_string
    ++ "\tshape: " ++ shape_to_string t.shape ++ "\n"

/-- The member `KernelEmitter::emit_comments`. -/
def emit_comments (e : KernelEmitter) (s : Store) : LanguageUnit × Store :=
  let (lu, s) := new_LanguageUnit s (e.m_kernel_name ++ "_comments")
  let lu := lu.write ("// Node name:\t" ++ e.m_context.gnode.unique_name ++ "\n")
  let lu := lu.write ("// Description:\t" ++ e.m_context.gnode.op_type ++ "\n")
  let lu := lu.write "// Input:\n"
  let lu := e.m_context.inputs.foldl (fun lu t => lu.write (comment_line t)) lu
  let lu := lu.write "// Output:\n"
  let lu := e.m_context.outputs.foldl (fun lu t => lu.write (comment_line t)) lu
  let lu := if e.m_context.tensors.isEmpty then lu else lu.write "// Other tensors in use:\n"
  let lu := e.m_context.tensors.foldl (fun lu t => lu.write (comment_line t)) lu
  (lu, s)

/-! ## Temporary tensors -/

/-- The member `KernelEmitter::allocate_tensor`: the tensor returned (the last of
`m_context->tensors`) and the emitter after the call. -/
def allocate_tensor (e : KernelEmitter) (a : AllocArgs) : Tensor × KernelEmitter :=
  let t_name := "temp" ++ toString e.m_context.tensors.length
  let name := if a.name = "" then e.m_context.gnode.unique_name ++ "_" ++ t_name else a.name
  let temp_tensor : Tensor :=
    { element_type := a.elt, shape := a.shape, name := name, device_type := a.device_type,
      is_persistent := a.is_persistent, is_constant := a.is_constant,
      is_parameter := a.is_parameter, is_RDMA_tensor := a.is_RDMA_tensor,
      group := a.group, device_id := a.device_id }
  (temp_tensor,
   { e with m_context := { e.m_context with
      tensors := e.m_context.tensors ++ [temp_tensor],
      tensor_names := e.m_context.tensor_names ++ [name] } })

/-- The calls of `allocate_tensor` a hook makes, one after the other. -/
def run_allocations (e : KernelEmitter) (allocations : List AllocArgs) : KernelEmitter :=
  allocations.foldl (fun e a => (allocate_tensor e a).2) e

/-- A unit returned by a hook, placed at the next free address. -/
def place_unit (s : Store) (u : LanguageUnit) : LanguageUnit × Store :=
  ({ u with addr := s.next_addr }, { s with next_addr := s.next_addr + 1 })

/-! ## Emission -/

/-- The block `if (this->m_kernel_name.empty()) ...` of `emit_source`: the name unit is
generated and its text becomes the kernel name. -/
def compute_kernel_name (fu : FunctionUnit) (e : KernelEmitter) (s : Store) :
    FunctionUnit × KernelEmitter × Store :=
  if e.m_kernel_name = "" then
    let (name_unit, s) := emit_function_name e s
    ({ fu with name_unit := some name_unit }, { e with m_kernel_name := name_unit.code }, s)
  else (fu, e, s)

/-- The part of `emit_source` after the cache lookup has missed (from `// emit function
units` on). -/
def emit_units (h : Hooks) (fu : FunctionUnit) (e : KernelEmitter) (s : Store) :
    Outcome (FunctionUnit_p × KernelEmitter × Store) :=
  let (signature_unit, s) := emit_function_signature e s
  let fu := { fu with signature_unit := some signature_unit }
  let body := h.emit_function_body e
  let e := run_allocations e body.allocations
  let s := { s with body_hook_calls := s.body_hook_calls + 1 }
  match body.unit with
  | none => .ok (none, e, s)
  | some body_unit =>
    let (body_unit, s) := place_unit s body_unit
    match emit_function_call e s with
    | .check_failed => .check_failed
    | .invalid_pointer => .invalid_pointer
    | .ok (call_unit, s) =>
      let dep := h.emit_dependency e
      let e := run_allocations e dep.allocations
      match dep.unit with
      | none => .check_failed
      | some dep_unit =>
        let (dep_unit, s) := place_unit s dep_unit
        let (comment_unit, s) := emit_comments e s
        -- Pass other to dep_unit
        let dep_unit := call_unit.local_symbol.foldl (fun d it => (d.require it.2).2) dep_unit
        let dep_unit := body_unit.local_symbol.foldl (fun d it => (d.require it.2).2) dep_unit
        let call_unit := call_unit.clean_require
        let body_unit := body_unit.clean_require
        -- orgnize dep
        match body_unit.require dep_unit.addr with
        | (false, _) => .check_failed
        | (true, body_unit) =>
          match call_unit.require body_unit.addr with
          | (false, _) => .check_failed
          | (true, call_unit) =>
            let fu := { fu with body_unit := some body_unit, call_unit := some call_unit,
                                dep_unit := some dep_unit, comment_unit := some comment_unit }
            .ok (some s.functions.length, e, { s with functions := s.functions ++ [fu] })

/-- The member `KernelEmitter::emit_source`. The result is the pointer returned (`none` is
`nullptr`), the emitter and the store after the call; the new `FunctionUnit` enters
`Store.functions` when it is returned. -/
def emit_source (h : Hooks) (e : KernelEmitter) (s : Store) :
    Outcome (FunctionUnit_p × KernelEmitter × Store) :=
  let fu : FunctionUnit := {}
  let (fu, e, s) := compute_kernel_name fu e s
  match s.kernel_definitions.lookup e.m_kernel_name with
  | some cached =>
    match cached with
    | none => .check_failed
    | some p => .ok (some p, e, s)
  | none => emit_units h fu e s

/-- The member `KernelEmitter::get_or_emit_source`. -/
def get_or_emit_source (h : Hooks) (emit_func_call : Bool) (e : KernelEmitter) (s : Store) :
    Outcome (FunctionUnit_p × KernelEmitter × Store) :=
  if e.m_is_emitted then
    if emit_func_call then
      match emit_function_call e s with
      | .check_failed => .check_failed
      | .invalid_pointer => .invalid_pointer
      | .ok (call_unit, s) =>
        match e.m_function_unit with
        | none => .invalid_pointer
        | some p =>
          match s.functions[p]? with
          | none => .invalid_pointer
          | some fu =>
            .ok (some p, e,
              { s with functions := s.functions.set p { fu with call_unit := some call_unit } })
    else .ok (e.m_function_unit, e, s)
  else
    match emit_source h e s with
    | .check_failed => .check_failed
    | .invalid_pointer => .invalid_pointer
    | .ok (r, e, s) => .ok (r, { e with m_function_unit := r, m_is_emitted := true }, s)

/-! ## Sequences of calls -/

/-- A sequence of `get_or_emit_source` calls by one emitter, with the given values of
`emit_func_call`; the sequence ends at the first fault. -/
def run_calls (h : Hooks) : List Bool → KernelEmitter → Store → Outcome (KernelEmitter × Store)
  | [], e, s => .ok (e, s)
  | b :: rest, e, s =>
    match get_or_emit_source h b e s with
    | .ok (_, e1, s1) => run_calls h rest e1 s1
    | .check_failed => .check_failed
    | .invalid_pointer => .invalid_pointer

/-! ## Sample objects -/

/-- A `float` tensor with the given name. -/
def sample_tensor (name : String) : Tensor :=
  { element_type := { c_type_string := "float" }, shape := [2, 3], name := name,
    device_type := 0, is_persistent := false, is_constant := false, is_parameter := false,
    is_RDMA_tensor := false, group := "", device_id := 0 }

/-- A node `Add` named `node3` with one input and one output, and no stream binding. -/
def sample_gnode : GNode :=
  { op_type := "Add", unique_name := "node3",
    input_tensors := [some (sample_tensor "in0")],
    output_tensors := [some (sample_tensor "out0")],
    async_info := none, op_annotations := none }

/-- The context of `sample_gnode`, as its constructor builds it. -/
def sample_context : KernelContext :=
  { gnode := sample_gnode, gpu_num_sm := 20,
    inputs := [sample_tensor "in0"], outputs := [sample_tensor "out0"], tensors := [],
    input_names := ["in0"], output_names := ["out0"], tensor_names := [],
    dtypes := ["float", "float"], annotations := none }

/-- A fresh emitter of category `simple` over `sample_context`. -/
def sample_emitter : KernelEmitter := KernelEmitter.create_typed sample_context "simple"

/-- The emitter `sample_emitter` once its kernel name is computed. -/
def sample_named_emitter : KernelEmitter :=
  { sample_emitter with m_kernel_name := "Add_float_float_simple_node3" }

/-- An empty store with the flag `FLAGS_fextern_result_memory` off. -/
def sample_store : Store :=
  { functions := [], next_addr := 0, kernel_definitions := [],
    FLAGS_fextern_result_memory := false, body_hook_calls := 0 }

/-- The arguments of an allocation of four floats with no explicit name. -/
def sample_alloc : AllocArgs :=
  { shape := [4], elt := { c_type_string := "float" }, name := "", device_type := 0,
    is_persistent := false, is_constant := false, is_parameter := false,
    is_RDMA_tensor := false, group := "", device_id := 0 }

/-- A body unit that stages one symbol, the unit at address 100. -/
def sample_body_unit : LanguageUnit :=
  { addr := 0, symbol := "body", code := "output0[0] = input0[0];\n", required := [],
    local_symbol := [("declaration::num_SMs", 100)] }

/-- A dependency unit. -/
def sample_dep_unit : LanguageUnit :=
  { addr := 0, symbol := "dep", code := "", required := [], local_symbol := [] }

/-- Hooks of a supported kernel whose body generation allocates one temporary. -/
def sample_hooks : Hooks :=
  { emit_function_body := fun _ => { allocations := [sample_alloc], unit := some sample_body_unit }
    emit_dependency := fun _ => { allocations := [], unit := some sample_dep_unit } }

/-- Hooks of an unsupported kernel: body generation returns `nullptr`. -/
def unsupported_hooks : Hooks :=
  { emit_function_body := fun _ => { allocations := [], unit := none }
    emit_dependency := fun _ => { allocations := [], unit := some sample_dep_unit } }

/-- Hooks whose body generation succeeds and whose dependency generation returns `nullptr`. -/
def no_dependency_hooks : Hooks :=
  { emit_function_body := fun _ => { allocations := [], unit := some sample_body_unit }
    emit_dependency := fun _ => { allocations := [], unit := none } }

/-- The artifact an emission returned, read from the store it left (`none` when the result is
`nullptr` or a fault). -/
def returned_artifact (r : Outcome (FunctionUnit_p × KernelEmitter × Store)) :
    Option FunctionUnit :=
  match r with
  | .ok (some p, _, s) => s.functions[p]?
  | _ => none

/-- The emitter after a call (`none` on a fault). -/
def emitter_after (r : Outcome (FunctionUnit_p × KernelEmitter × Store)) : Option KernelEmitter :=
  match r with
  | .ok (_, e, _) => some e
  | _ => none

/-- The store after a call (`none` on a fault). -/
def store_after (r : Outcome (FunctionUnit_p × KernelEmitter × Store)) : Option Store :=
  match r with
  | .ok (_, _, s) => some s
  | _ => none

/-- The pointer a call returned (`none` on a fault, `some none` for `nullptr`). -/
def returned_pointer (r : Outcome (FunctionUnit_p × KernelEmitter × Store)) :
    Option FunctionUnit_p :=
  match r with
  | .ok (p, _, _) => some p
  | _ => none

/-- Whether, in an artifact, the unit in slot `a` has the unit in slot `b` in its required
set (`false` when a slot is null). -/
def slot_requires (a b : Option LanguageUnit) : Bool :=
  match a, b with
  | some u, some v => decide (v.addr ∈ u.required)
  | _, _ => false

/-- The emitter `sample_named_emitter` after one allocation with no explicit name. -/
def sample_temp_emitter : KernelEmitter := (allocate_tensor sample_named_emitter sample_alloc).2

/-- A call of `get_or_emit_source` on the emitter and store a previous call left. -/
def then_get_or_emit_source (h : Hooks) (emit_func_call : Bool)
    (r : Outcome (FunctionUnit_p × KernelEmitter × Store)) :
    Outcome (FunctionUnit_p × KernelEmitter × Store) :=
  match r with
  | .ok (_, e, s) => get_or_emit_source h emit_func_call e s
  | .check_failed => .check_failed
  | .invalid_pointer => .invalid_pointer

/-- A call of `emit_source` by the emitter `e` on the store a previous call left. -/
def then_emit_source (h : Hooks) (e : KernelEmitter)
    (r : Outcome (FunctionUnit_p × KernelEmitter × Store)) :
    Outcome (FunctionUnit_p × KernelEmitter × Store) :=
  match r with
  | .ok (_, _, s) => emit_source h e s
  | .check_failed => .check_failed
  | .invalid_pointer => .invalid_pointer

/-- Hooks of a supported kernel whose generation allocates nothing. -/
def plain_hooks : Hooks :=
  { emit_function_body := fun _ => { allocations := [], unit := some sample_body_unit }
    emit_dependency := fun _ => { allocations := [], unit := some sample_dep_unit } }

/-- The node `sample_gnode` with an execution stream assigned whose binding has no handle. -/
def stream_gnode : GNode :=
  { sample_gnode with
    async_info := some { execution_stream := some { name := "stream0", binding_symbol := [] } } }

/-- A fresh emitter over `stream_gnode` that has allocated, before emission, one temporary
under the explicit name `cudnnHandle_t_workspace`. -/
def stream_emitter : KernelEmitter :=
  (allocate_tensor
    (KernelEmitter.create_typed { sample_context with gnode := stream_gnode } "simple")
    { sample_alloc with name := "cudnnHandle_t_workspace" }).2

/-- The emitter `sample_emitter` after its first `get_or_emit_source` with `sample_hooks`. -/
def emitted_emitter : KernelEmitter :=
  (emitter_after (get_or_emit_source sample_hooks false sample_emitter sample_store)).getD
    sample_emitter

/-- The store after the first `get_or_emit_source` of `sample_emitter`. -/
def emitted_store : Store :=
  (store_after (get_or_emit_source sample_hooks false sample_emitter sample_store)).getD
    sample_store

/-- The call unit a refresh of `emitted_emitter` creates. -/
def refreshed_call_unit : LanguageUnit :=
  { addr := 6, symbol := "Add_float_float_simple_node3_call",
    code := "(in0, out0, node3_temp0);\n", required := [], local_symbol := [] }

/-- An emitter as `sample_emitter` with the given category and node unique id. -/
def sample_emitter_of (kernel_type unique_name : String) : KernelEmitter :=
  KernelEmitter.create_typed
    { sample_context with gnode := { sample_gnode with unique_name := unique_name } } kernel_type

/-- A fresh emitter for the node `Conv2d_7`. -/
def conv_emitter : KernelEmitter := sample_emitter_of "cuda" "Conv2d_7"

/-- The allocation `sample_alloc` under the explicit name `scratch`. -/
def scratch_alloc : AllocArgs := { sample_alloc with name := "scratch" }

/-- The node `sample_gnode` with a null second input pointer. -/
def broken_gnode : GNode :=
  { sample_gnode with input_tensors := [some (sample_tensor "in0"), none] }

/-- The emitter `stream_emitter` after its first `get_or_emit_source` with `plain_hooks`. -/
def stream_emitted_emitter : KernelEmitter :=
  (emitter_after (get_or_emit_source plain_hooks false stream_emitter sample_store)).getD
    stream_emitter

/-- The store after the first `get_or_emit_source` of `stream_emitter`. -/
def stream_emitted_store : Store :=
  (store_after (get_or_emit_source plain_hooks false stream_emitter sample_store)).getD
    sample_store

/-- The stream `stream0` with both library handles bound. -/
def bound_stream : Stream :=
  { name := "stream0",
    binding_symbol := [("cudnn_handle", "cudnn_handle_0"), ("cublas_handle", "cublas_handle_0")] }

/-- The emitter `stream_emitted_emitter` once its node is bound to `bound_stream`. -/
def bound_emitted_emitter : KernelEmitter :=
  { stream_emitted_emitter with
    m_context := { stream_emitted_emitter.m_context with
      gnode := { stream_gnode with
        async_info := some { execution_stream := some bound_stream } } } }

/-- An emitter that holds the artifact 0, over the node `sample_gnode` without binding. -/
def holding_emitter : KernelEmitter :=
  { sample_named_emitter with m_is_emitted := true, m_function_unit := some 0 }

/-- A store whose artifact 0 has no unit at all. -/
def empty_artifact_store : Store := { sample_store with functions := [{}] }

/-! ## Call-site text in the words of the spec -/

/-- The leading arguments `L` as the spec words them: the stream name and `", "` if the
signature text contains `cudaStream_t`, then `binding["cudnn_handle"]` and `", "` if it
contains `cudnnHandle_t`, then `binding["cublas_handle"]` and `", "` if it contains
`cublasHandle_t` (`binding[...]` of a missing key being the empty string). -/
def call_site_leading_spec (sig_code : String) (stream : Stream) : String :=
  (if find sig_code "cudaStream_t" ≠ none then stream.name ++ ", " else "")
  ++ (if find sig_code "cudnnHandle_t" ≠ none
      then (stream.binding_symbol.lookup "cudnn_handle").getD "" ++ ", " else "")
  ++ (if find sig_code "cublasHandle_t" ≠ none
      then (stream.binding_symbol.lookup "cublas_handle").getD "" ++ ", " else "")

/-- The call-site text as the spec words it, for the leading arguments `leading`. -/
def call_site_text_spec (e : KernelEmitter) (leading : String) : String :=
  "(" ++ leading
    ++ join (e.m_context.input_names ++ e.m_context.output_names ++ e.m_context.tensor_names)
        ", "
    ++ ");\n"

/-- The identifier and text of the call unit a generation produced, or its fault. -/
def call_outcome_text (r : Outcome (LanguageUnit × Store)) : Outcome (String × String) :=
  match r with
  | .ok (u, _) => .ok (u.symbol, u.code)
  | .check_failed => .check_failed
  | .invalid_pointer => .invalid_pointer

/-- The emitter and store after the calls `get_or_emit_source(false)` and
`get_or_emit_source(true)` of `sample_emitter` with `sample_hooks`. -/
def after_two_calls : KernelEmitter × Store :=
  match run_calls sample_hooks [false, true] sample_emitter sample_store with
  | .ok x => x
  | _ => (sample_emitter, sample_store)

/-- The emitter and store after two more calls, `get_or_emit_source(true)` and
`get_or_emit_source(false)`. -/
def after_four_calls : KernelEmitter × Store :=
  match run_calls sample_hooks [true, false] after_two_calls.1 after_two_calls.2 with
  | .ok x => x
  | _ => (sample_emitter, sample_store)

/-- The emitter `sample_emitter` under a kernel name that contains `Result`. -/
def result_named_emitter : KernelEmitter :=
  { sample_emitter with m_kernel_name := "Result_float_float_simple_node3" }

/-- The store `sample_store` with the flag `FLAGS_fextern_result_memory` on. -/
def extern_store : Store := { sample_store with FLAGS_fextern_result_memory := true }

/-- The store after one call-site refresh of `emitted_emitter`. -/
def refreshed_store : Store :=
  (store_after (get_or_emit_source sample_hooks true emitted_emitter emitted_store)).getD
    sample_store

/-- The call unit a second refresh of `emitted_emitter` creates. -/
def second_refreshed_call_unit : LanguageUnit := { refreshed_call_unit with addr := 7 }

/-! ## Underscore-separated segments -/

/-- The segments `segs`, each followed by an underscore, then `rest`. -/
def chain : List (List Char) → List Char → List Char
  | [], rest => rest
  | a :: segs, rest => a ++ '_' :: chain segs rest

/-- The segments that `join dtypes "_"` writes: one empty segment for the empty list. -/
def dtype_segments (dtypes : List String) : List (List Char) :=
  if dtypes = [] then [[]] else dtypes.map String.data

/-! ## Decimal digits -/

/-- The number of which `l` continues the decimal digits, `acc` being the value read so
far. -/
def decode_digits (acc : Nat) (l : List Char) : Nat :=
  l.foldl (fun a c => a * 10 + (c.toNat - 48)) acc

/-! ## Auxiliary facts -/

theorem foldl_push_eq_append_map {α β : Type} (f : α → β) (l : List α) (init : List β) :
    l.foldl (fun acc x => acc ++ [f x]) init = init ++ l.map f := by
  induction l generalizing init with
  | nil => simp
  | cons x xs ih => simp [ih]

/-- The three loops of `emit_function_signature` as three mapped segments. -/
theorem signature_params_eq (e : KernelEmitter) (s : Store) :
    signature_params e s =
      e.m_context.inputs.enum.map (fun it =>
        it.2.element_type.c_type_string ++ "* " ++ "input" ++ toString it.1)
      ++ e.m_context.outputs.enum.map (fun it =>
        (if find e.m_kernel_name "Result" = none ∨ s.FLAGS_fextern_result_memory = true
          then it.2.element_type.c_type_string ++ "* "
          else it.2.element_type.c_type_string ++ "** ") ++ "output" ++ toString it.1)
      ++ e.m_context.tensors.enum.map (fun it =>
        it.2.element_type.c_type_string ++ "* " ++ it.2.name) := by
  simp only [signature_params, foldl_push_eq_append_map, List.nil_append]

theorem signature_params_length (e : KernelEmitter) (s : Store) :
    (signature_params e s).length =
      e.m_context.inputs.length + e.m_context.outputs.length + e.m_context.tensors.length := by
  simp [signature_params_eq, Nat.add_assoc]

theorem signature_params_input (e : KernelEmitter) (s : Store) (i : Nat)
    (h : i < e.m_context.inputs.length) :
    (signature_params e s)[i]? =
      some (e.m_context.inputs[i].element_type.c_type_string ++ "* " ++ "input" ++ toString i) := by
  rw [signature_params_eq, List.append_assoc, List.getElem?_append_left (by simpa using h)]
  simp [List.getElem?_enum, List.getElem?_eq_getElem h]

theorem signature_params_output (e : KernelEmitter) (s : Store) (j : Nat)
    (h : j < e.m_context.outputs.length) :
    (signature_params e s)[e.m_context.inputs.length + j]? =
      some ((if find e.m_kernel_name "Result" = none ∨ s.FLAGS_fextern_result_memory = true
          then e.m_context.outputs[j].element_type.c_type_string ++ "* "
          else e.m_context.outputs[j].element_type.c_type_string ++ "** ")
        ++ "output" ++ toString j) := by
  rw [signature_params_eq, List.append_assoc, List.getElem?_append_right (by simp)]
  simp only [List.length_map, List.enum_length, Nat.add_sub_cancel_left]
  rw [List.getElem?_append_left (by simpa using h)]
  simp [List.getElem?_enum, List.getElem?_eq_getElem h]

theorem signature_params_tensor (e : KernelEmitter) (s : Store) (l : Nat)
    (h : l < e.m_context.tensors.length) :
    (signature_params e s)[e.m_context.inputs.length + e.m_context.outputs.length + l]? =
      some (e.m_context.tensors[l].element_type.c_type_string ++ "* "
        ++ e.m_context.tensors[l].name) := by
  rw [signature_params_eq, List.getElem?_append_right (by simp)]
  simp [List.getElem?_enum, List.getElem?_eq_getElem h]

theorem emit_function_signature_code (e : KernelEmitter) (s : Store) :
    (emit_function_signature e s).1.code = "void (" ++ join (signature_params e s) ", " ++ ")" := by
  simp [emit_function_signature, new_LanguageUnit, LanguageUnit.write]

/-- The search `find_chars` finds nothing exactly when `pat` is not a contiguous part of
`hay`. -/
theorem find_chars_eq_none_iff (hay pat : List Char) :
    find_chars hay pat = none ↔ ¬ pat <:+: hay := by
  induction hay with
  | nil =>
    cases pat <;> simp [find_chars]
  | cons c cs ih =>
    rw [find_chars, List.infix_cons_iff]
    by_cases hp : pat.isPrefixOf (c :: cs) = true
    · have hp2 : pat <+: c :: cs := List.isPrefixOf_iff_prefix.mp hp
      simp [hp, hp2]
    · have hp2 : ¬ pat <+: c :: cs := fun h => hp (List.isPrefixOf_iff_prefix.mpr h)
      have hp3 : pat.isPrefixOf (c :: cs) = false := Bool.eq_false_iff.mpr hp
      rw [hp3]
      simp only [Bool.false_eq_true, if_false, Option.map_eq_none', hp2, false_or]
      exact ih

/-- The call `s.find(pat)` is `npos` exactly when the characters of `pat` do not occur, in
a row, in `s`. -/
theorem find_eq_none_iff (s pat : String) : find s pat = none ↔ ¬ pat.data <:+: s.data :=
  find_chars_eq_none_iff s.data pat.data

/-! ## Signature (C1, C2) -/

/-- C1: output parameter `j` of the signature is `<ctype>* output<j>` when the kernel name
does not contain the characters `Result` in a row or the external-result-memory flag is set,
and `<ctype>** output<j>` when the name contains `Result` and the flag is off; the test
`find("Result") == npos` of the code holds exactly when the name does not contain `Result`;
with the name `Add_float_float_simple_node3` and the flag off every output is a
single-level pointer. -/
theorem emit_function_signature_output_pointer_depth (e : KernelEmitter) (s : Store) (j : Nat)
    (hj : j < e.m_context.outputs.length) :
    (emit_function_signature e s).1.code = "void (" ++ join (signature_params e s) ", " ++ ")"
    ∧ (find e.m_kernel_name "Result" = none ↔ ¬ "Result".data <:+: e.m_kernel_name.data)
    ∧ ((¬ "Result".data <:+: e.m_kernel_name.data ∨ s.FLAGS_fextern_result_memory = true) →
        (signature_params e s)[e.m_context.inputs.length + j]? =
          some (e.m_context.outputs[j].element_type.c_type_string ++ "* " ++ "output"
            ++ toString j))
    ∧ (("Result".data <:+: e.m_kernel_name.data ∧ s.FLAGS_fextern_result_memory = false) →
        (signature_params e s)[e.m_context.inputs.length + j]? =
          some (e.m_context.outputs[j].element_type.c_type_string ++ "** " ++ "output"
            ++ toString j))
    ∧ ((find e.m_kernel_name "Result" = none ∨ s.FLAGS_fextern_result_memory = true) →
        (signature_params e s)[e.m_context.inputs.length + j]? =
          some (e.m_context.outputs[j].element_type.c_type_string ++ "* " ++ "output"
            ++ toString j))
    ∧ (¬ (find e.m_kernel_name "Result" = none ∨ s.FLAGS_fextern_result_memory = true) →
        (signature_params e s)[e.m_context.inputs.length + j]? =
          some (e.m_context.outputs[j].element_type.c_type_string ++ "** " ++ "output"
            ++ toString j))
    ∧ (e.m_kernel_name = "Add_float_float_simple_node3" →
        s.FLAGS_fextern_result_memory = false →
        (signature_params e s)[e.m_context.inputs.length + j]? =
          some (e.m_context.outputs[j].element_type.c_type_string ++ "* " ++ "output"
            ++ toString j)) := by
  have hfind : find e.m_kernel_name "Result" = none
      ↔ ¬ "Result".data <:+: e.m_kernel_name.data :=
    find_chars_eq_none_iff e.m_kernel_name.data "Result".data
  refine ⟨emit_function_signature_code e s, hfind, ?_, ?_, ?_, ?_, ?_⟩
  · intro hc
    have hc2 : find e.m_kernel_name "Result" = none ∨ s.FLAGS_fextern_result_memory = true :=
      hc.imp hfind.mpr id
    rw [signature_params_output e s j hj, if_pos hc2]
  · intro hc
    have hc2 : ¬ (find e.m_kernel_name "Result" = none
        ∨ s.FLAGS_fextern_result_memory = true) := by
      intro h
      rcases h with h | h
      · exact hfind.mp h hc.1
      · rw [hc.2] at h; cases h
    rw [signature_params_output e s j hj, if_neg hc2]
  · intro hc
    rw [signature_params_output e s j hj, if_pos hc]
  · intro hc
    rw [signature_params_output e s j hj, if_neg hc]
  · intro hn _
    have hnone : find e.m_kernel_name "Result" = none := by rw [hn]; decide
    rw [signature_params_output e s j hj, if_pos (Or.inl hnone)]

/-- C2: the signature text is `void (` + the parameters joined by `, ` + `)`, and the
parameter list has `k + m + t` entries: the `k` inputs as `<ctype>* input<i>`, then the `m`
outputs named `output<j>` and typed by their element type (one or two stars), then the `t`
temporaries as `<ctype>* <name>` in the order of the context. -/
theorem emit_function_signature_parameters (e : KernelEmitter) (s : Store) :
    (emit_function_signature e s).1.code = "void (" ++ join (signature_params e s) ", " ++ ")"
    ∧ (signature_params e s).length =
        e.m_context.inputs.length + e.m_context.outputs.length + e.m_context.tensors.length
    ∧ (∀ i (hi : i < e.m_context.inputs.length),
        (signature_params e s)[i]? =
          some (e.m_context.inputs[i].element_type.c_type_string ++ "* " ++ "input"
            ++ toString i))
    ∧ (∀ j (hj : j < e.m_context.outputs.length),
        (signature_params e s)[e.m_context.inputs.length + j]? =
            some (e.m_context.outputs[j].element_type.c_type_string ++ "* " ++ "output"
              ++ toString j)
        ∨ (signature_params e s)[e.m_context.inputs.length + j]? =
            some (e.m_context.outputs[j].element_type.c_type_string ++ "** " ++ "output"
              ++ toString j))
    ∧ (∀ l (hl : l < e.m_context.tensors.length),
        (signature_params e s)[e.m_context.inputs.length + e.m_context.outputs.length + l]? =
          some (e.m_context.tensors[l].element_type.c_type_string ++ "* "
            ++ e.m_context.tensors[l].name)) := by
  refine ⟨emit_function_signature_code e s, signature_params_length e s,
    fun i hi => signature_params_input e s i hi, ?_,
    fun l hl => signature_params_tensor e s l hl⟩
  intro j hj
  rw [signature_params_output e s j hj]
  by_cases hc : find e.m_kernel_name "Result" = none ∨ s.FLAGS_fextern_result_memory = true
  · left; rw [if_pos hc]
  · right; rw [if_neg hc]

/-! ## Kernel name (C4, C5) -/

theorem emit_function_name_code (e : KernelEmitter) (s : Store) :
    (emit_function_name e s).1.code =
      e.m_context.gnode.op_type ++ "_" ++ join e.m_context.dtypes "_" ++ "_"
        ++ e.m_kernel_type ++ "_" ++ e.m_context.gnode.unique_name := by
  simp [emit_function_name, new_LanguageUnit, LanguageUnit.write]

theorem string_append_left_cancel (a u v : String) (h : a ++ u = a ++ v) : u = v := by
  have hd := congrArg String.data h
  simp only [String.data_append] at hd
  exact String.ext (List.append_cancel_left hd)

/-- C4: the name text is `op_type_dtypes_kerneltype_uniquename`; it depends on these four
components only (not on the store, so a second call gives the same string), and two emitters
that agree on the first three and differ in the node unique id get different names. -/
theorem emit_function_name_pure (e : KernelEmitter) (s : Store) :
    (emit_function_name e s).1.code =
      e.m_context.gnode.op_type ++ "_" ++ join e.m_context.dtypes "_" ++ "_"
        ++ e.m_kernel_type ++ "_" ++ e.m_context.gnode.unique_name
    ∧ (emit_function_name e (emit_function_name e s).2).1.code = (emit_function_name e s).1.code
    ∧ (∀ (e2 : KernelEmitter) (s2 : Store),
        e2.m_context.gnode.op_type = e.m_context.gnode.op_type →
        e2.m_context.dtypes = e.m_context.dtypes →
        e2.m_kernel_type = e.m_kernel_type →
        e2.m_context.gnode.unique_name = e.m_context.gnode.unique_name →
        (emit_function_name e2 s2).1.code = (emit_function_name e s).1.code)
    ∧ (∀ (e2 : KernelEmitter) (s2 : Store),
        e2.m_context.gnode.op_type = e.m_context.gnode.op_type →
        e2.m_context.dtypes = e.m_context.dtypes →
        e2.m_kernel_type = e.m_kernel_type →
        e2.m_context.gnode.unique_name ≠ e.m_context.gnode.unique_name →
        (emit_function_name e2 s2).1.code ≠ (emit_function_name e s).1.code) := by
  refine ⟨emit_function_name_code e s, ?_, ?_, ?_⟩
  · rw [emit_function_name_code, emit_function_name_code]
  · intro e2 s2 h1 h2 h3 h4
    rw [emit_function_name_code, emit_function_name_code, h1, h2, h3, h4]
  · intro e2 s2 h1 h2 h3 h4 hc
    rw [emit_function_name_code, emit_function_name_code, h1, h2, h3] at hc
    exact h4 (string_append_left_cancel _ _ _ hc)

/-- Witness of C4: the emitters of `node3` and `node4`, otherwise equal, get the names
`Add_float_float_simple_node3` and `Add_float_float_simple_node4`. -/
theorem emit_function_name_pure_witness :
    (emit_function_name (sample_emitter_of "simple" "node3") sample_store).1.code
        = "Add_float_float_simple_node3"
    ∧ (emit_function_name (sample_emitter_of "simple" "node4") sample_store).1.code
        ≠ (emit_function_name (sample_emitter_of "simple" "node3") sample_store).1.code :=
  ⟨(emit_function_name_pure (sample_emitter_of "simple" "node3") sample_store).1,
   (emit_function_name_pure (sample_emitter_of "simple" "node3") sample_store).2.2.2
     (sample_emitter_of "simple" "node4") sample_store rfl rfl rfl (by decide)⟩

/-- Witness of C1: the one output is `float* output0` under the name
`Add_float_float_simple_node3`, `float** output0` under the name
`Result_float_float_simple_node3` with the flag off, and `float* output0` under that name
with the flag on. -/
theorem emit_function_signature_output_pointer_depth_witness :
    0 < sample_named_emitter.m_context.outputs.length
    ∧ (signature_params sample_named_emitter sample_store)[1]? = some "float* output0"
    ∧ ("Result".data <:+: result_named_emitter.m_kernel_name.data
        ∧ sample_store.FLAGS_fextern_result_memory = false)
    ∧ (signature_params result_named_emitter sample_store)[1]? = some "float** output0"
    ∧ find result_named_emitter.m_kernel_name "Result" ≠ none
    ∧ find result_named_emitter.m_kernel_name "Result" = some 0
    ∧ find "Add_Result_float" "Result" = some 4
    ∧ extern_store.FLAGS_fextern_result_memory = true
    ∧ (signature_params result_named_emitter extern_store)[1]? = some "float* output0" :=
  ⟨by decide,
   (emit_function_signature_output_pointer_depth sample_named_emitter sample_store 0
      (by decide)).2.2.2.2.2.2 rfl rfl,
   ⟨by decide, rfl⟩,
   (emit_function_signature_output_pointer_depth result_named_emitter sample_store 0
      (by decide)).2.2.2.1 ⟨by decide, rfl⟩,
   fun hnone =>
     ((emit_function_signature_output_pointer_depth result_named_emitter sample_store 0
        (by decide)).2.1.mp hnone) (by decide),
   by decide, by decide,
   rfl,
   (emit_function_signature_output_pointer_depth result_named_emitter extern_store 0
      (by decide)).2.2.1 (Or.inr rfl)⟩

/-- Witness of C2: with one input, one output and one temporary the signature is
`void (float* input0, float* output0, float* node3_temp0)`. -/
theorem emit_function_signature_parameters_witness :
    (emit_function_signature sample_temp_emitter sample_store).1.code
      = "void (float* input0, float* output0, float* node3_temp0)"
    ∧ (signature_params sample_temp_emitter sample_store).length = 1 + 1 + 1
    ∧ (signature_params sample_temp_emitter sample_store)[0]? = some "float* input0"
    ∧ (signature_params sample_temp_emitter sample_store)[1 + 1 + 0]?
        = some "float* node3_temp0" :=
  ⟨(emit_function_signature_parameters sample_temp_emitter sample_store).1,
   (emit_function_signature_parameters sample_temp_emitter sample_store).2.1,
   (emit_function_signature_parameters sample_temp_emitter sample_store).2.2.1 0 (by decide),
   (emit_function_signature_parameters sample_temp_emitter sample_store).2.2.2.2 0
     (by decide)⟩

theorem underscore_split (a b x y : List Char) (ha : '_' ∉ a) (hb : '_' ∉ b)
    (h : a ++ '_' :: x = b ++ '_' :: y) : a = b ∧ x = y := by
  induction a generalizing b with
  | nil =>
    cases b with
    | nil => simpa using h
    | cons c cs =>
      simp only [List.nil_append, List.cons_append, List.cons.injEq] at h
      exact absurd (h.1 ▸ List.mem_cons_self _ _) hb
  | cons c cs ih =>
    cases b with
    | nil =>
      simp only [List.nil_append, List.cons_append, List.cons.injEq] at h
      exact absurd (h.1 ▸ List.mem_cons_self _ _) ha
    | cons d ds =>
      simp only [List.cons_append, List.cons.injEq] at h
      have hcs : '_' ∉ cs := fun hm => ha (List.mem_cons_of_mem _ hm)
      have hds : '_' ∉ ds := fun hm => hb (List.mem_cons_of_mem _ hm)
      obtain ⟨h1, h2⟩ := ih ds hcs hds h.2
      exact ⟨by rw [h.1, h1], h2⟩

theorem chain_injective (as bs : List (List Char)) (r r2 : List Char)
    (hlen : as.length = bs.length) (ha : ∀ a ∈ as, '_' ∉ a) (hb : ∀ b ∈ bs, '_' ∉ b)
    (h : chain as r = chain bs r2) : as = bs ∧ r = r2 := by
  induction as generalizing bs with
  | nil =>
    cases bs with
    | nil => exact ⟨rfl, h⟩
    | cons b bs => simp at hlen
  | cons a as ih =>
    cases bs with
    | nil => simp at hlen
    | cons b bs =>
      simp only [chain] at h
      obtain ⟨h1, h2⟩ := underscore_split a b _ _ (ha a (List.mem_cons_self _ _))
        (hb b (List.mem_cons_self _ _)) h
      obtain ⟨h3, h4⟩ := ih bs (by simpa using hlen)
        (fun x hx => ha x (List.mem_cons_of_mem _ hx))
        (fun x hx => hb x (List.mem_cons_of_mem _ hx)) h2
      exact ⟨by rw [h1, h3], h4⟩

theorem intercalate_go_data (sep : String) (l : List String) (acc : String) :
    (String.intercalate.go acc sep l).data
      = acc.data ++ (l.map (fun a => sep.data ++ a.data)).flatten := by
  induction l generalizing acc with
  | nil => simp [String.intercalate.go]
  | cons x xs ih => simp [String.intercalate.go, ih, List.append_assoc]

theorem flatten_underscore_chain (l : List String) (r : List Char) :
    (l.map (fun a => "_".data ++ a.data)).flatten ++ '_' :: r
      = '_' :: chain (l.map String.data) r := by
  induction l with
  | nil => simp [chain]
  | cons x xs ih =>
    simp only [List.map_cons, List.flatten_cons, List.append_assoc, ih, chain]
    rfl

theorem join_data_chain (dtypes : List String) (r : List Char) :
    (join dtypes "_").data ++ '_' :: r = chain (dtype_segments dtypes) r := by
  cases dtypes with
  | nil => simp [join, String.intercalate, dtype_segments, chain]
  | cons d ds =>
    simp only [join, String.intercalate, intercalate_go_data, dtype_segments, List.map_cons,
      chain, List.append_assoc, flatten_underscore_chain]

theorem chain_append (as bs : List (List Char)) (r : List Char) :
    chain (as ++ bs) r = chain as (chain bs r) := by
  induction as with
  | nil => rfl
  | cons a as ih => simp [chain, ih]

/-- The characters of a kernel name, as underscore-separated segments. -/
theorem emit_function_name_data (e : KernelEmitter) (s : Store) :
    (emit_function_name e s).1.code.data =
      chain (e.m_context.gnode.op_type.data ::
        (dtype_segments e.m_context.dtypes ++ [e.m_kernel_type.data]))
        e.m_context.gnode.unique_name.data := by
  have hchain : ∀ (a : List Char) (segs : List (List Char)) (r : List Char),
      chain (a :: segs) r = a ++ '_' :: chain segs r := fun _ _ _ => rfl
  rw [emit_function_name_code, hchain, chain_append, ← join_data_chain, hchain]
  simp only [String.data_append, List.append_assoc, chain]
  rfl

theorem dtype_segments_length (a b : List String) (h : a.length = b.length) :
    (dtype_segments a).length = (dtype_segments b).length := by
  cases a <;> cases b <;> simp_all [dtype_segments]

theorem dtype_segments_injective (a b : List String) (hlen : a.length = b.length)
    (h : dtype_segments a = dtype_segments b) : a = b := by
  cases a with
  | nil =>
    cases b with
    | nil => rfl
    | cons y ys => simp at hlen
  | cons x xs =>
    cases b with
    | nil => simp at hlen
    | cons y ys =>
      simp only [dtype_segments, if_false, reduceCtorEq] at h
      exact List.map_injective_iff.mpr (fun u v huv => String.ext huv) h

theorem dtype_segments_underscore_free (a : List String) (h : ∀ d ∈ a, '_' ∉ d.data) :
    ∀ x ∈ dtype_segments a, '_' ∉ x := by
  intro x hx
  cases a with
  | nil =>
    simp only [dtype_segments, if_true, List.mem_singleton] at hx
    rw [hx]; simp
  | cons y ys =>
    simp only [dtype_segments, if_false, reduceCtorEq, List.mem_map] at hx
    obtain ⟨d, hd, rfl⟩ := hx
    exact h d hd

/-- C5, as stated, fails: category `cuda` with node id `lib_Add_1` and category `cuda_lib`
with node id `Add_1` give the same name `Add_float_float_cuda_lib_Add_1`. -/
theorem emit_function_name_collision :
    (emit_function_name (sample_emitter_of "cuda" "lib_Add_1") sample_store).1.code
      = (emit_function_name (sample_emitter_of "cuda_lib" "Add_1") sample_store).1.code
    ∧ (emit_function_name (sample_emitter_of "cuda" "lib_Add_1") sample_store).1.code
      = "Add_float_float_cuda_lib_Add_1"
    ∧ (sample_emitter_of "cuda" "lib_Add_1").m_kernel_type
      ≠ (sample_emitter_of "cuda_lib" "Add_1").m_kernel_type
    ∧ (sample_emitter_of "cuda" "lib_Add_1").m_context.gnode.unique_name
      ≠ (sample_emitter_of "cuda_lib" "Add_1").m_context.gnode.unique_name := by
  decide

/-- C5, amended: when the two type-tag lists have the same length and no operator type tag,
type tag or kernel category contains an underscore, equal names give the same operator type
tag, the same type-tag list, the same kernel category and the same node unique id. -/
theorem emit_function_name_injective_of_underscore_free (e1 e2 : KernelEmitter) (s1 s2 : Store)
    (hlen : e1.m_context.dtypes.length = e2.m_context.dtypes.length)
    (hop1 : '_' ∉ e1.m_context.gnode.op_type.data)
    (hop2 : '_' ∉ e2.m_context.gnode.op_type.data)
    (hd1 : ∀ d ∈ e1.m_context.dtypes, '_' ∉ d.data)
    (hd2 : ∀ d ∈ e2.m_context.dtypes, '_' ∉ d.data)
    (hk1 : '_' ∉ e1.m_kernel_type.data)
    (hk2 : '_' ∉ e2.m_kernel_type.data)
    (h : (emit_function_name e1 s1).1.code = (emit_function_name e2 s2).1.code) :
    e1.m_context.gnode.op_type = e2.m_context.gnode.op_type
    ∧ e1.m_context.dtypes = e2.m_context.dtypes
    ∧ e1.m_kernel_type = e2.m_kernel_type
    ∧ e1.m_context.gnode.unique_name = e2.m_context.gnode.unique_name := by
  have hdata := congrArg String.data h
  rw [emit_function_name_data, emit_function_name_data] at hdata
  have hfree : ∀ (e : KernelEmitter), '_' ∉ e.m_context.gnode.op_type.data →
      (∀ d ∈ e.m_context.dtypes, '_' ∉ d.data) → '_' ∉ e.m_kernel_type.data →
      ∀ x ∈ e.m_context.gnode.op_type.data ::
        (dtype_segments e.m_context.dtypes ++ [e.m_kernel_type.data]), '_' ∉ x := by
    intro e ho hd hk x hx
    simp only [List.mem_cons, List.mem_append, List.mem_singleton] at hx
    rcases hx with hx | hx | hx
    · rw [hx]; exact ho
    · exact dtype_segments_underscore_free _ hd x hx
    · rcases hx with hx | hx
      · rw [hx]; exact hk
      · cases hx
  have hseglen := dtype_segments_length _ _ hlen
  obtain ⟨hsegs, huid⟩ := chain_injective _ _ _ _ (by simp [hseglen])
    (hfree e1 hop1 hd1 hk1) (hfree e2 hop2 hd2 hk2) hdata
  simp only [List.cons.injEq] at hsegs
  obtain ⟨hop, hrest⟩ := hsegs
  have hlen2 : (dtype_segments e1.m_context.dtypes).length
      = (dtype_segments e2.m_context.dtypes).length := hseglen
  obtain ⟨hds, hkt⟩ := List.append_inj hrest hlen2
  simp only [List.cons.injEq, and_true] at hkt
  exact ⟨String.ext hop, dtype_segments_injective _ _ hlen hds, String.ext hkt, String.ext huid⟩

/-- Witness of C5 amended: a fresh and an already emitted emitter of category `simple` for
the node `node_3` (the unique id may contain underscores). -/
theorem emit_function_name_injective_of_underscore_free_witness :
    (sample_emitter_of "simple" "node_3").m_context.dtypes.length
      = ({ sample_emitter_of "simple" "node_3" with m_is_emitted := true }).m_context.dtypes.length
    ∧ '_' ∉ (sample_emitter_of "simple" "node_3").m_context.gnode.op_type.data
    ∧ (∀ d ∈ (sample_emitter_of "simple" "node_3").m_context.dtypes, '_' ∉ d.data)
    ∧ '_' ∉ (sample_emitter_of "simple" "node_3").m_kernel_type.data
    ∧ (emit_function_name (sample_emitter_of "simple" "node_3") sample_store).1.code
      = (emit_function_name ({ sample_emitter_of "simple" "node_3" with m_is_emitted := true })
          { sample_store with next_addr := 7 }).1.code
    ∧ (sample_emitter_of "simple" "node_3").m_context.gnode.unique_name
      = ({ sample_emitter_of "simple" "node_3" with
            m_is_emitted := true }).m_context.gnode.unique_name :=
  ⟨rfl, by decide, by decide, by decide, by decide,
   (emit_function_name_injective_of_underscore_free
      (sample_emitter_of "simple" "node_3")
      ({ sample_emitter_of "simple" "node_3" with m_is_emitted := true })
      sample_store { sample_store with next_addr := 7 }
      rfl (by decide) (by decide) (by decide) (by decide) (by decide) (by decide)
      (by decide)).2.2.2⟩

/-! ## Emission: auxiliary facts -/

theorem allocate_tensor_frame (e : KernelEmitter) (a : AllocArgs) :
    (allocate_tensor e a).2.m_function_unit = e.m_function_unit
    ∧ (allocate_tensor e a).2.m_context.gnode = e.m_context.gnode
    ∧ (allocate_tensor e a).2.m_kernel_name = e.m_kernel_name
    ∧ (allocate_tensor e a).2.m_is_emitted = e.m_is_emitted := by
  simp [allocate_tensor]

theorem run_allocations_frame (e : KernelEmitter) (l : List AllocArgs) :
    (run_allocations e l).m_function_unit = e.m_function_unit
    ∧ (run_allocations e l).m_context.gnode = e.m_context.gnode
    ∧ (run_allocations e l).m_kernel_name = e.m_kernel_name
    ∧ (run_allocations e l).m_is_emitted = e.m_is_emitted := by
  induction l generalizing e with
  | nil => simp [run_allocations]
  | cons a l ih =>
    have h1 := ih (allocate_tensor e a).2
    have h2 := allocate_tensor_frame e a
    simp only [run_allocations, List.foldl_cons] at h1 ⊢
    refine ⟨h1.1.trans h2.1, h1.2.1.trans h2.2.1, h1.2.2.1.trans h2.2.2.1,
      h1.2.2.2.trans h2.2.2.2⟩

theorem leading_arguments_congr (e e2 : KernelEmitter) (s s2 : Store)
    (hu : e2.m_function_unit = e.m_function_unit)
    (hg : e2.m_context.gnode = e.m_context.gnode)
    (hf : s2.functions = s.functions) :
    leading_arguments e2 s2 = leading_arguments e s := by
  simp only [leading_arguments, hu, hg, hf]

theorem compute_kernel_name_frame (fu : FunctionUnit) (e : KernelEmitter) (s : Store) :
    (compute_kernel_name fu e s).2.1.m_function_unit = e.m_function_unit
    ∧ (compute_kernel_name fu e s).2.1.m_context = e.m_context
    ∧ (compute_kernel_name fu e s).2.1.m_is_emitted = e.m_is_emitted
    ∧ (compute_kernel_name fu e s).2.2.functions = s.functions
    ∧ (compute_kernel_name fu e s).2.2.kernel_definitions = s.kernel_definitions
    ∧ (compute_kernel_name fu e s).2.2.body_hook_calls = s.body_hook_calls := by
  unfold compute_kernel_name
  split <;> simp [emit_function_name, new_LanguageUnit]

theorem emit_function_call_eq (e : KernelEmitter) (s : Store) (leading : String)
    (h : leading_arguments e s = .ok leading) :
    emit_function_call e s = .ok
      ({ addr := s.next_addr, symbol := e.m_kernel_name ++ "_call",
         code := "" ++ "(" ++ leading ++ (join (e.m_context.input_names
           ++ e.m_context.output_names ++ e.m_context.tensor_names) ", " ++ ");\n"),
         required := [], local_symbol := [] },
       { s with next_addr := s.next_addr + 1 }) := by
  simp [emit_function_call, h, new_LanguageUnit, LanguageUnit.write]

theorem emit_function_call_ok (e : KernelEmitter) (s s1 : Store) (cu : LanguageUnit)
    (h : emit_function_call e s = .ok (cu, s1)) :
    ∃ leading, leading_arguments e s = .ok leading := by
  unfold emit_function_call at h
  cases hl : leading_arguments e s with
  | ok l => exact ⟨l, rfl⟩
  | check_failed => simp [hl, new_LanguageUnit] at h
  | invalid_pointer => simp [hl, new_LanguageUnit] at h

theorem emit_function_call_store (e : KernelEmitter) (s s1 : Store) (cu : LanguageUnit)
    (h : emit_function_call e s = .ok (cu, s1)) :
    s1 = { s with next_addr := s.next_addr + 1 } := by
  obtain ⟨leading, hl⟩ := emit_function_call_ok e s s1 cu h
  rw [emit_function_call_eq e s leading hl] at h
  simp only [Outcome.ok.injEq, Prod.mk.injEq] at h
  exact h.2.symm

theorem leading_arguments_valid (e : KernelEmitter) (s : Store) (p : Nat) (leading : String)
    (hu : e.m_function_unit = some p) (hl : leading_arguments e s = .ok leading) :
    ∃ fu, s.functions[p]? = some fu := by
  unfold leading_arguments at hl
  rw [hu] at hl
  cases hf : s.functions[p]? with
  | none => simp [hf] at hl
  | some fu => exact ⟨fu, rfl⟩

theorem emit_units_none (h : Hooks) (fu : FunctionUnit) (e : KernelEmitter) (s : Store)
    (hb : (h.emit_function_body e).unit = none) :
    emit_units h fu e s = .ok (none, run_allocations e (h.emit_function_body e).allocations,
      { s with next_addr := s.next_addr + 1, body_hook_calls := s.body_hook_calls + 1 }) := by
  simp [emit_units, hb, emit_function_signature, new_LanguageUnit]

theorem emit_units_some (h : Hooks) (fu : FunctionUnit) (e : KernelEmitter) (s : Store)
    (body_unit dep_unit : LanguageUnit) (leading : String)
    (hb : (h.emit_function_body e).unit = some body_unit)
    (hl : leading_arguments e s = .ok leading)
    (hd : (h.emit_dependency (run_allocations e (h.emit_function_body e).allocations)).unit
      = some dep_unit) :
    ∃ e2 s2 fu2, emit_units h fu e s = .ok (some s.functions.length, e2, s2)
      ∧ s2.functions = s.functions ++ [fu2]
      ∧ s2.kernel_definitions = s.kernel_definitions
      ∧ fu2.name_unit = fu.name_unit
      ∧ fu2.signature_unit = some (emit_function_signature e s).1
      ∧ fu2.body_unit.isSome = true
      ∧ fu2.call_unit.isSome = true
      ∧ fu2.dep_unit.isSome = true
      ∧ fu2.comment_unit.isSome = true := by
  have hfr := run_allocations_frame e (h.emit_function_body e).allocations
  have hl2 : ∀ s2 : Store, s2.functions = s.functions →
      leading_arguments (run_allocations e (h.emit_function_body e).allocations) s2
        = .ok leading := by
    intro s2 hs2
    rw [leading_arguments_congr e _ s s2 hfr.1 hfr.2.1 hs2, hl]
  have hcall := fun (s2 : Store) (hs2 : s2.functions = s.functions) =>
    emit_function_call_eq _ s2 leading (hl2 s2 hs2)
  simp only [emit_units, hb, emit_function_signature, new_LanguageUnit, place_unit]
  rw [hcall _ (by rfl)]
  simp only [hd, emit_comments, new_LanguageUnit, place_unit, LanguageUnit.require]
  exact ⟨_, _, _, rfl, rfl, rfl, rfl, rfl, rfl, rfl, rfl, rfl⟩

/-- Full emission never writes `kernel_definitions`, and appends at most one artifact. -/
theorem emit_units_kernel_definitions (h : Hooks) (fu : FunctionUnit) (e e2 : KernelEmitter)
    (s s2 : Store) (r : FunctionUnit_p) (hr : emit_units h fu e s = .ok (r, e2, s2)) :
    s2.kernel_definitions = s.kernel_definitions := by
  unfold emit_units at hr
  simp only [emit_function_signature, new_LanguageUnit, place_unit, emit_comments,
    LanguageUnit.require] at hr
  split at hr
  · simp only [Outcome.ok.injEq, Prod.mk.injEq] at hr
    rw [← hr.2.2]
  · split at hr
    · cases hr
    · cases hr
    · rename_i cu s1 hcall
      have hs1 := emit_function_call_store _ _ _ _ hcall
      split at hr
      · cases hr
      · simp only [Outcome.ok.injEq, Prod.mk.injEq] at hr
        rw [← hr.2.2, hs1]

theorem emit_source_miss (h : Hooks) (e : KernelEmitter) (s : Store)
    (hmiss : s.kernel_definitions.lookup (compute_kernel_name {} e s).2.1.m_kernel_name = none) :
    emit_source h e s = emit_units h (compute_kernel_name {} e s).1
      (compute_kernel_name {} e s).2.1 (compute_kernel_name {} e s).2.2 := by
  have hfr := compute_kernel_name_frame {} e s
  rw [← hfr.2.2.2.2.1] at hmiss
  simp only [emit_source, hmiss]

theorem emit_source_kernel_definitions (h : Hooks) (e e2 : KernelEmitter)
    (s s2 : Store) (r : FunctionUnit_p) (hr : emit_source h e s = .ok (r, e2, s2)) :
    s2.kernel_definitions = s.kernel_definitions := by
  have hfr := compute_kernel_name_frame {} e s
  unfold emit_source at hr
  simp only at hr
  split at hr
  · split at hr
    · cases hr
    · simp only [Outcome.ok.injEq, Prod.mk.injEq] at hr
      rw [← hr.2.2, hfr.2.2.2.2.1]
  · rw [emit_units_kernel_definitions h _ _ _ _ _ _ hr, hfr.2.2.2.2.1]

theorem get_or_emit_source_first (h : Hooks) (b : Bool) (e : KernelEmitter) (s : Store)
    (hne : e.m_is_emitted = false) :
    returned_pointer (get_or_emit_source h b e s) = returned_pointer (emit_source h e s)
    ∧ store_after (get_or_emit_source h b e s) = store_after (emit_source h e s)
    ∧ returned_artifact (get_or_emit_source h b e s) = returned_artifact (emit_source h e s) := by
  unfold get_or_emit_source
  rw [hne]
  cases hr : emit_source h e s with
  | ok r =>
    obtain ⟨r, e1, s1⟩ := r
    cases r <;> simp [returned_pointer, store_after, returned_artifact]
  | check_failed => simp [returned_pointer, store_after, returned_artifact]
  | invalid_pointer => simp [returned_pointer, store_after, returned_artifact]

theorem get_or_emit_source_first_emitter (h : Hooks) (b : Bool) (e0 e : KernelEmitter)
    (s0 s : Store) (r : FunctionUnit_p) (hne : e0.m_is_emitted = false)
    (hfirst : get_or_emit_source h b e0 s0 = .ok (r, e, s)) :
    e.m_is_emitted = true ∧ e.m_function_unit = r := by
  unfold get_or_emit_source at hfirst
  rw [hne] at hfirst
  cases hr : emit_source h e0 s0 with
  | ok t =>
    obtain ⟨r1, e1, s1⟩ := t
    simp only [hr, Bool.false_eq_true, if_false, Outcome.ok.injEq, Prod.mk.injEq] at hfirst
    obtain ⟨h1, h2, _⟩ := hfirst
    subst h1 h2
    exact ⟨rfl, rfl⟩
  | check_failed => simp [hr] at hfirst
  | invalid_pointer => simp [hr] at hfirst

theorem get_or_emit_source_kernel_definitions (h : Hooks) (b : Bool) (e e2 : KernelEmitter)
    (s s2 : Store) (r : FunctionUnit_p) (hr : get_or_emit_source h b e s = .ok (r, e2, s2)) :
    s2.kernel_definitions = s.kernel_definitions := by
  unfold get_or_emit_source at hr
  split at hr
  · split at hr
    · split at hr
      · cases hr
      · cases hr
      · rename_i cu s1 hcall
        have hs1 := emit_function_call_store _ _ _ _ hcall
        split at hr
        · cases hr
        · split at hr
          · cases hr
          · simp only [Outcome.ok.injEq, Prod.mk.injEq] at hr
            rw [← hr.2.2, hs1]
    · simp only [Outcome.ok.injEq, Prod.mk.injEq] at hr
      rw [← hr.2.2]
  · split at hr
    · cases hr
    · cases hr
    · rename_i r1 e1 s1 hsrc
      simp only [Outcome.ok.injEq, Prod.mk.injEq] at hr
      rw [← hr.2.2]
      exact emit_source_kernel_definitions h _ _ _ _ _ hsrc

/-- After any call of `get_or_emit_source` that returns, the emitter is Emitted and holds
the pointer returned. -/
theorem get_or_emit_source_holds (h : Hooks) (b : Bool) (e e2 : KernelEmitter)
    (s s2 : Store) (r : FunctionUnit_p) (hr : get_or_emit_source h b e s = .ok (r, e2, s2)) :
    e2.m_is_emitted = true ∧ e2.m_function_unit = r := by
  unfold get_or_emit_source at hr
  split at hr
  · rename_i hem
    split at hr
    · split at hr
      · cases hr
      · cases hr
      · split at hr
        · cases hr
        · rename_i p hp
          split at hr
          · cases hr
          · simp only [Outcome.ok.injEq, Prod.mk.injEq] at hr
            rw [← hr.2.1, ← hr.1]
            exact ⟨hem, hp⟩
    · simp only [Outcome.ok.injEq, Prod.mk.injEq] at hr
      rw [← hr.2.1, ← hr.1]
      exact ⟨hem, rfl⟩
  · split at hr
    · cases hr
    · cases hr
    · simp only [Outcome.ok.injEq, Prod.mk.injEq] at hr
      rw [← hr.2.1, ← hr.1]
      exact ⟨rfl, rfl⟩

/-! ## Emission (C3, C6 to C10) -/

/-- C3 at a failing input: the body hook of `sample_hooks` allocates one temporary, and the
emission succeeds; the context then holds the temporary `node3_temp0` and the call unit
passes it, but the signature unit, generated before the body, has the `k + m = 2`
parameters only. -/
theorem emit_source_signature_omits_body_temporaries :
    (emitter_after (emit_source sample_hooks sample_emitter sample_store)).map
        (fun e => e.m_context.tensor_names) = some ["node3_temp0"]
    ∧ ((returned_artifact (emit_source sample_hooks sample_emitter sample_store)).bind
        (fun fu => fu.signature_unit)).map (fun u => u.code)
        = some "void (float* input0, float* output0)"
    ∧ ((returned_artifact (emit_source sample_hooks sample_emitter sample_store)).bind
        (fun fu => fu.call_unit)).map (fun u => u.code)
        = some "(in0, out0, node3_temp0);\n" := by
  decide

/-- C6 at a failing input: after a successful full emission from an empty cache the cache
is still empty, and a full emission by a second emitter of the same kernel name runs the
body hook again (two invocations) and returns another artifact (pointer 1, not 0). -/
theorem emit_source_does_not_fill_cache :
    returned_pointer (emit_source sample_hooks sample_emitter sample_store) = some (some 0)
    ∧ (store_after (emit_source sample_hooks sample_emitter sample_store)).map
        (fun s => s.kernel_definitions) = some []
    ∧ (emitter_after (emit_source sample_hooks sample_emitter sample_store)).map
        (fun e => e.m_kernel_name) = some "Add_float_float_simple_node3"
    ∧ (emitter_after (then_emit_source sample_hooks sample_emitter
        (emit_source sample_hooks sample_emitter sample_store))).map
        (fun e => e.m_kernel_name) = some "Add_float_float_simple_node3"
    ∧ returned_pointer (then_emit_source sample_hooks sample_emitter
        (emit_source sample_hooks sample_emitter sample_store)) = some (some 1)
    ∧ (store_after (then_emit_source sample_hooks sample_emitter
        (emit_source sample_hooks sample_emitter sample_store))).map
        (fun s => s.body_hook_calls) = some 2 := by
  decide

/-- C7, as stated, fails: the first emission of `stream_emitter` succeeds (artifact 0, whose
signature text names `cudnnHandle_t`), and the call-site refresh stops at the check that
the binding has `cudnn_handle` instead of returning the artifact. -/
theorem refresh_fails_on_missing_binding :
    returned_pointer (get_or_emit_source plain_hooks false stream_emitter sample_store)
        = some (some 0)
    ∧ ((returned_artifact (get_or_emit_source plain_hooks false stream_emitter sample_store)).bind
        (fun fu => fu.signature_unit)).map (fun u => u.code)
        = some "void (float* input0, float* output0, float* cudnnHandle_t_workspace)"
    ∧ then_get_or_emit_source plain_hooks true
        (get_or_emit_source plain_hooks false stream_emitter sample_store)
        = Outcome.check_failed := by
  decide

/-- C7, amended: for an Emitted emitter that holds an artifact, as every emitter is after a
successful first emission and after every later call that returned one, whenever the
regeneration of the call site does not fail, `get_or_emit_source(true)` returns the same
artifact pointer, with the name, signature, body, dependency and comment units unchanged
and the call unit replaced by the newly created one; the emitter, every other artifact and
the cache are unchanged. -/
theorem get_or_emit_source_refresh_replaces_call_only (h : Hooks)
    (e : KernelEmitter) (s s1 : Store) (p : Nat) (call_unit : LanguageUnit)
    (hem : e.m_is_emitted = true)
    (hu : e.m_function_unit = some p)
    (hcall : emit_function_call e s = .ok (call_unit, s1)) :
    (∃ (fu fu2 : FunctionUnit) (s2 : Store),
      s.functions[p]? = some fu
      ∧ get_or_emit_source h true e s = .ok (some p, e, s2)
      ∧ s2.functions[p]? = some fu2
      ∧ fu2.name_unit = fu.name_unit
      ∧ fu2.signature_unit = fu.signature_unit
      ∧ fu2.body_unit = fu.body_unit
      ∧ fu2.dep_unit = fu.dep_unit
      ∧ fu2.comment_unit = fu.comment_unit
      ∧ fu2.call_unit = some call_unit
      ∧ call_unit.addr = s.next_addr
      ∧ (∀ q, q ≠ p → s2.functions[q]? = s.functions[q]?)
      ∧ s2.kernel_definitions = s.kernel_definitions
      ∧ s2.body_hook_calls = s.body_hook_calls)
    ∧ (∀ (b0 : Bool) (e0 e1 : KernelEmitter) (s0 s3 : Store) (q : Nat),
        get_or_emit_source h b0 e0 s0 = .ok (some q, e1, s3) →
        e1.m_is_emitted = true ∧ e1.m_function_unit = some q) := by
  refine ⟨?_, fun b0 e0 e1 s0 s3 q hr => get_or_emit_source_holds h b0 e0 e1 s0 s3 (some q) hr⟩
  obtain ⟨leading, hl⟩ := emit_function_call_ok e s s1 call_unit hcall
  obtain ⟨fu, hfu⟩ := leading_arguments_valid e s p leading hu hl
  have hcu := emit_function_call_eq e s leading hl
  rw [hcall] at hcu
  simp only [Outcome.ok.injEq, Prod.mk.injEq] at hcu
  obtain ⟨hcu1, hs1⟩ := hcu
  have hp : p < s.functions.length := by
    rcases List.getElem?_eq_some_iff.mp hfu with ⟨hlt, _⟩
    exact hlt
  refine ⟨fu, { fu with call_unit := some call_unit },
    { s1 with functions := s.functions.set p { fu with call_unit := some call_unit } },
    hfu, ?_, ?_, rfl, rfl, rfl, rfl, rfl, rfl, ?_, ?_, ?_, ?_⟩
  · unfold get_or_emit_source
    simp only [hem, if_true, hcall, hu]
    simp only [hs1, hfu]
  · simp [List.getElem?_set, hp]
  · rw [hcu1]
  · intro q hq
    simp [List.getElem?_set, Ne.symm hq]
  · rw [hs1]
  · rw [hs1]

/-- Witness of C7 amended: the first refresh of `sample_emitter` after its first emission,
and a second refresh on the store the first refresh left. -/
theorem get_or_emit_source_refresh_replaces_call_only_witness :
    get_or_emit_source sample_hooks false sample_emitter sample_store
        = .ok (some 0, emitted_emitter, emitted_store)
    ∧ emitted_emitter.m_is_emitted = true
    ∧ emitted_emitter.m_function_unit = some 0
    ∧ emit_function_call emitted_emitter emitted_store
        = .ok (refreshed_call_unit, { emitted_store with next_addr := 7 })
    ∧ (∃ (fu fu2 : FunctionUnit) (s2 : Store),
        emitted_store.functions[0]? = some fu
        ∧ get_or_emit_source sample_hooks true emitted_emitter emitted_store
            = .ok (some 0, emitted_emitter, s2)
        ∧ s2.functions[0]? = some fu2
        ∧ fu2.name_unit = fu.name_unit
        ∧ fu2.signature_unit = fu.signature_unit
        ∧ fu2.body_unit = fu.body_unit
        ∧ fu2.dep_unit = fu.dep_unit
        ∧ fu2.comment_unit = fu.comment_unit
        ∧ fu2.call_unit = some refreshed_call_unit
        ∧ refreshed_call_unit.addr = emitted_store.next_addr
        ∧ (∀ q, q ≠ 0 → s2.functions[q]? = emitted_store.functions[q]?)
        ∧ s2.kernel_definitions = emitted_store.kernel_definitions
        ∧ s2.body_hook_calls = emitted_store.body_hook_calls)
    ∧ get_or_emit_source sample_hooks true emitted_emitter emitted_store
        = .ok (some 0, emitted_emitter, refreshed_store)
    ∧ emit_function_call emitted_emitter refreshed_store
        = .ok (second_refreshed_call_unit, { refreshed_store with next_addr := 8 })
    ∧ (∃ (fu fu2 : FunctionUnit) (s2 : Store),
        refreshed_store.functions[0]? = some fu
        ∧ get_or_emit_source sample_hooks true emitted_emitter refreshed_store
            = .ok (some 0, emitted_emitter, s2)
        ∧ s2.functions[0]? = some fu2
        ∧ fu2.name_unit = fu.name_unit
        ∧ fu2.signature_unit = fu.signature_unit
        ∧ fu2.body_unit = fu.body_unit
        ∧ fu2.dep_unit = fu.dep_unit
        ∧ fu2.comment_unit = fu.comment_unit
        ∧ fu2.call_unit = some second_refreshed_call_unit
        ∧ second_refreshed_call_unit.addr = refreshed_store.next_addr
        ∧ (∀ q, q ≠ 0 → s2.functions[q]? = refreshed_store.functions[q]?)
        ∧ s2.kernel_definitions = refreshed_store.kernel_definitions
        ∧ s2.body_hook_calls = refreshed_store.body_hook_calls) :=
  ⟨rfl, rfl, rfl, rfl,
   (get_or_emit_source_refresh_replaces_call_only sample_hooks emitted_emitter
     emitted_store { emitted_store with next_addr := 7 } 0 refreshed_call_unit
     rfl rfl rfl).1,
   rfl, rfl,
   (get_or_emit_source_refresh_replaces_call_only sample_hooks emitted_emitter
     refreshed_store { refreshed_store with next_addr := 8 } 0 second_refreshed_call_unit
     rfl rfl rfl).1⟩

/-- C8 at a failing input: after the first emission the body unit requires the dependency
unit and the call unit requires the body unit; after a call-site refresh the body unit
still requires the dependency unit, but the artifact holds a new call unit, with an empty
required set, that does not require the body unit. -/
theorem refreshed_call_unit_does_not_require_body :
    (returned_artifact (get_or_emit_source sample_hooks false sample_emitter sample_store)).map
        (fun fu => (slot_requires fu.body_unit fu.dep_unit,
          slot_requires fu.call_unit fu.body_unit)) = some (true, true)
    ∧ (returned_artifact (then_get_or_emit_source sample_hooks true
        (get_or_emit_source sample_hooks false sample_emitter sample_store))).map
        (fun fu => (slot_requires fu.body_unit fu.dep_unit,
          slot_requires fu.call_unit fu.body_unit)) = some (true, false)
    ∧ ((returned_artifact (then_get_or_emit_source sample_hooks true
        (get_or_emit_source sample_hooks false sample_emitter sample_store))).bind
        (fun fu => fu.call_unit)).map (fun u => u.required) = some []
    ∧ returned_pointer (then_get_or_emit_source sample_hooks true
        (get_or_emit_source sample_hooks false sample_emitter sample_store))
      = returned_pointer (get_or_emit_source sample_hooks false sample_emitter sample_store) := by
  decide

/-- C9 at a failing input: when the body hook returns no body, the first
`get_or_emit_source` leaves the emitter Emitted with a null artifact; a second call returns
null, and with `emit_func_call` it assigns through the null pointer. -/
theorem emitted_without_artifact :
    (emitter_after (get_or_emit_source unsupported_hooks false sample_emitter sample_store)).map
        (fun e => (e.m_is_emitted, e.m_function_unit)) = some (true, none)
    ∧ returned_pointer (then_get_or_emit_source unsupported_hooks false
        (get_or_emit_source unsupported_hooks false sample_emitter sample_store)) = some none
    ∧ then_get_or_emit_source unsupported_hooks true
        (get_or_emit_source unsupported_hooks false sample_emitter sample_store)
        = Outcome.invalid_pointer := by
  decide

/-- C10, as stated, fails: with an empty cache, a body hook that returns a body and a
dependency hook that returns `nullptr`, `emit_source` stops at a failed check. -/
theorem emit_source_fails_without_dependency :
    (no_dependency_hooks.emit_function_body
        (compute_kernel_name {} sample_emitter sample_store).2.1).unit = some sample_body_unit
    ∧ sample_store.kernel_definitions.lookup
        (compute_kernel_name {} sample_emitter sample_store).2.1.m_kernel_name = none
    ∧ emit_source no_dependency_hooks sample_emitter sample_store = Outcome.check_failed := by
  decide

/-- C10, amended: on a cache miss, if the body hook returns no body then `emit_source`, and
the first `get_or_emit_source`, return `nullptr` without a fault and leave the artifacts and
the cache as they were; if the body hook returns a body, the call-site generation does not
fail and the dependency hook returns a unit, `emit_source` returns a non-null artifact whose
signature, body, call, dependency and comment units are all present. -/
theorem emit_source_unsupported_or_complete (h : Hooks) (b : Bool) (e : KernelEmitter) (s : Store)
    (hmiss : s.kernel_definitions.lookup (compute_kernel_name {} e s).2.1.m_kernel_name = none) :
    ((h.emit_function_body (compute_kernel_name {} e s).2.1).unit = none →
        returned_pointer (emit_source h e s) = some none
        ∧ (store_after (emit_source h e s)).map (fun t => t.functions) = some s.functions
        ∧ (store_after (emit_source h e s)).map (fun t => t.kernel_definitions)
            = some s.kernel_definitions
        ∧ (e.m_is_emitted = false →
            returned_pointer (get_or_emit_source h b e s) = some none
            ∧ (store_after (get_or_emit_source h b e s)).map (fun t => t.functions)
                = some s.functions
            ∧ (store_after (get_or_emit_source h b e s)).map (fun t => t.kernel_definitions)
                = some s.kernel_definitions))
    ∧ (∀ (body_unit dep_unit : LanguageUnit) (leading : String),
        (h.emit_function_body (compute_kernel_name {} e s).2.1).unit = some body_unit →
        leading_arguments e s = .ok leading →
        (h.emit_dependency (run_allocations (compute_kernel_name {} e s).2.1
          (h.emit_function_body (compute_kernel_name {} e s).2.1).allocations)).unit
            = some dep_unit →
        ∃ (p : Nat) (fu : FunctionUnit),
          returned_pointer (emit_source h e s) = some (some p)
          ∧ returned_artifact (emit_source h e s) = some fu
          ∧ fu.signature_unit.isSome = true ∧ fu.body_unit.isSome = true
          ∧ fu.call_unit.isSome = true ∧ fu.dep_unit.isSome = true
          ∧ fu.comment_unit.isSome = true) := by
  have hfr := compute_kernel_name_frame {} e s
  have hsrc := emit_source_miss h e s hmiss
  constructor
  · intro hb
    have hres : returned_pointer (emit_source h e s) = some none
        ∧ (store_after (emit_source h e s)).map (fun t => t.functions) = some s.functions
        ∧ (store_after (emit_source h e s)).map (fun t => t.kernel_definitions)
            = some s.kernel_definitions := by
      rw [hsrc, emit_units_none h _ _ _ hb]
      simp [returned_pointer, store_after, hfr.2.2.2.1, hfr.2.2.2.2.1]
    refine ⟨hres.1, hres.2.1, hres.2.2, ?_⟩
    intro hne
    have hg := get_or_emit_source_first h b e s hne
    rw [hg.1, hg.2.1]
    exact hres
  · intro body_unit dep_unit leading hb hl hd
    have hl1 : leading_arguments (compute_kernel_name {} e s).2.1
        (compute_kernel_name {} e s).2.2 = .ok leading := by
      rw [leading_arguments_congr e _ s _ hfr.1 (by rw [hfr.2.1]) hfr.2.2.2.1, hl]
    obtain ⟨e2, s2, fu2, hres, hfun, _, _, hsig, hbody, hcall, hdep, hcom⟩ :=
      emit_units_some h (compute_kernel_name {} e s).1 _ _ body_unit dep_unit leading hb hl1 hd
    refine ⟨(compute_kernel_name {} e s).2.2.functions.length, fu2, ?_, ?_, ?_,
      hbody, hcall, hdep, hcom⟩
    · rw [hsrc, hres]; rfl
    · rw [hsrc, hres]; simp [returned_artifact, hfun]
    · rw [hsig]; rfl

/-- Witness of C10 amended: from the empty cache, `unsupported_hooks` gives `nullptr` and
`sample_hooks` gives the artifact 0. -/
theorem emit_source_unsupported_or_complete_witness :
    sample_store.kernel_definitions.lookup
        (compute_kernel_name {} sample_emitter sample_store).2.1.m_kernel_name = none
    ∧ returned_pointer (emit_source unsupported_hooks sample_emitter sample_store) = some none
    ∧ (∃ (p : Nat) (fu : FunctionUnit),
        returned_pointer (emit_source sample_hooks sample_emitter sample_store) = some (some p)
        ∧ returned_artifact (emit_source sample_hooks sample_emitter sample_store) = some fu
        ∧ fu.signature_unit.isSome = true ∧ fu.body_unit.isSome = true
        ∧ fu.call_unit.isSome = true ∧ fu.dep_unit.isSome = true
        ∧ fu.comment_unit.isSome = true) :=
  ⟨by decide,
   ((emit_source_unsupported_or_complete unsupported_hooks false sample_emitter sample_store
      (by decide)).1 (by decide)).1,
   (emit_source_unsupported_or_complete sample_hooks false sample_emitter sample_store
      (by decide)).2 sample_body_unit sample_dep_unit "" (by decide) (by decide) (by decide)⟩

/-! ## Temporary tensors (C11, C13) -/

theorem run_allocations_append (e : KernelEmitter) (l1 l2 : List AllocArgs) :
    run_allocations e (l1 ++ l2) = run_allocations (run_allocations e l1) l2 := by
  simp [run_allocations, List.foldl_append]

/-- C11: with `n` temporaries in the context of a node of unique id `u`, `allocate_tensor`
with an empty name registers a descriptor named `u_temp<n>`, and with a non-empty name `s` a
descriptor named `s`; either way the context then holds `n + 1` temporaries. For the node
`Conv2d_7` the first three names are `Conv2d_7_temp0`, `Conv2d_7_temp1` and the explicit
`scratch`, and the next default name is `Conv2d_7_temp3`. -/
theorem allocate_tensor_naming (e : KernelEmitter) (a : AllocArgs) :
    (a.name = "" →
        (allocate_tensor e a).1.name
          = e.m_context.gnode.unique_name ++ "_temp" ++ toString e.m_context.tensors.length)
    ∧ (a.name ≠ "" → (allocate_tensor e a).1.name = a.name)
    ∧ (allocate_tensor e a).2.m_context.tensors
        = e.m_context.tensors ++ [(allocate_tensor e a).1]
    ∧ (allocate_tensor e a).2.m_context.tensor_names
        = e.m_context.tensor_names ++ [(allocate_tensor e a).1.name]
    ∧ (allocate_tensor e a).2.m_context.tensors.length = e.m_context.tensors.length + 1
    ∧ (run_allocations conv_emitter
          [sample_alloc, sample_alloc, scratch_alloc, sample_alloc]).m_context.tensor_names
        = ["Conv2d_7_temp0", "Conv2d_7_temp1", "scratch", "Conv2d_7_temp3"] := by
  refine ⟨?_, ?_, rfl, rfl, ?_, by decide⟩
  · intro h
    simp only [allocate_tensor, h, if_true, String.append_assoc]
    rfl
  · intro h
    simp only [allocate_tensor, h, if_false]
  · simp [allocate_tensor]

/-- Witness of C11: the first allocation of `conv_emitter`, without a name and with the
name `scratch`. -/
theorem allocate_tensor_naming_witness :
    (allocate_tensor conv_emitter sample_alloc).1.name = "Conv2d_7_temp0"
    ∧ (allocate_tensor conv_emitter scratch_alloc).1.name = "scratch"
    ∧ (allocate_tensor conv_emitter sample_alloc).2.m_context.tensors.length = 0 + 1 :=
  ⟨(allocate_tensor_naming conv_emitter sample_alloc).1 rfl,
   (allocate_tensor_naming conv_emitter scratch_alloc).2.1 (by decide),
   (allocate_tensor_naming conv_emitter sample_alloc).2.2.2.2.1⟩

theorem extract_tensors_ok (l : List (Option Tensor)) (ts : List Tensor) (ns : List String)
    (h : none ∉ l) :
    extract_tensors l ts ns
      = .ok (ts ++ l.filterMap id, ns ++ (l.filterMap id).map (fun t => t.name)) := by
  induction l generalizing ts ns with
  | nil => simp [extract_tensors]
  | cons x xs ih =>
    cases x with
    | none => simp at h
    | some tv =>
      have hxs : none ∉ xs := fun hm => h (List.mem_cons_of_mem _ hm)
      simp [extract_tensors, ih _ _ hxs, List.append_assoc]

theorem extract_tensors_fail (l : List (Option Tensor)) (ts : List Tensor) (ns : List String)
    (h : none ∈ l) : extract_tensors l ts ns = .check_failed := by
  induction l generalizing ts ns with
  | nil => simp at h
  | cons x xs ih =>
    cases x with
    | none => simp [extract_tensors]
    | some tv =>
      have hxs : none ∈ xs := by simpa using h
      simp [extract_tensors, ih _ _ hxs]

theorem map_some_filterMap_id (l : List (Option Tensor)) (h : none ∉ l) :
    (l.filterMap id).map some = l := by
  induction l with
  | nil => rfl
  | cons x xs ih =>
    cases x with
    | none => simp at h
    | some tv =>
      have hxs : none ∉ xs := fun hm => h (List.mem_cons_of_mem _ hm)
      simp [ih hxs]

/-- The constructor of `KernelContext` on a node without a null tensor pointer. -/
theorem KernelContext.create_ok (g : GNode) (hi : none ∉ g.input_tensors)
    (ho : none ∉ g.output_tensors) :
    KernelContext.create g = .ok
      { gnode := g, gpu_num_sm := 20,
        inputs := g.input_tensors.filterMap id, outputs := g.output_tensors.filterMap id,
        tensors := [],
        input_names := (g.input_tensors.filterMap id).map (fun t => t.name),
        output_names := (g.output_tensors.filterMap id).map (fun t => t.name),
        tensor_names := [],
        dtypes := (g.input_tensors.filterMap id).map (fun t => t.element_type.c_type_string)
          ++ (g.output_tensors.filterMap id).map (fun t => t.element_type.c_type_string),
        annotations := g.op_annotations } := by
  simp [KernelContext.create, extract_tensors_ok _ _ _ hi, extract_tensors_ok _ _ _ ho,
    foldl_push_eq_append_map]

theorem KernelContext.create_fail (g : GNode)
    (h : none ∈ g.input_tensors ∨ none ∈ g.output_tensors) :
    KernelContext.create g = .check_failed := by
  by_cases hi : none ∈ g.input_tensors
  · simp [KernelContext.create, extract_tensors_fail _ _ _ hi]
  · have ho : none ∈ g.output_tensors := h.resolve_left hi
    simp [KernelContext.create, extract_tensors_ok _ _ _ hi, extract_tensors_fail _ _ _ ho]

theorem allocate_tensor_names_invariant (e : KernelEmitter) (a : AllocArgs)
    (h : e.m_context.tensor_names = e.m_context.tensors.map (fun t => t.name)) :
    (allocate_tensor e a).2.m_context.tensor_names
      = (allocate_tensor e a).2.m_context.tensors.map (fun t => t.name) := by
  simp [allocate_tensor, h]

theorem run_allocations_names_invariant (e : KernelEmitter) (l : List AllocArgs)
    (h : e.m_context.tensor_names = e.m_context.tensors.map (fun t => t.name)) :
    (run_allocations e l).m_context.tensor_names
      = (run_allocations e l).m_context.tensors.map (fun t => t.name) := by
  induction l generalizing e with
  | nil => simpa [run_allocations] using h
  | cons a l ih =>
    have := ih (allocate_tensor e a).2 (allocate_tensor_names_invariant e a h)
    simpa [run_allocations] using this

/-- C13: `allocate_tensor` extends the temporary list by the new descriptor, which carries
the given shape, element type and flags, and the name list by its name; the descriptor
returned is the last temporary; the name list stays the list of the names of the
temporaries (from any context where it is, so in every context built by the constructor and
allocations); inputs, outputs, their names and the type tags are unchanged. -/
theorem allocate_tensor_append_only (e : KernelEmitter) (a : AllocArgs) :
    (allocate_tensor e a).2.m_context.tensors
        = e.m_context.tensors ++ [(allocate_tensor e a).1]
    ∧ (allocate_tensor e a).2.m_context.tensor_names
        = e.m_context.tensor_names ++ [(allocate_tensor e a).1.name]
    ∧ ((allocate_tensor e a).1.shape = a.shape
        ∧ (allocate_tensor e a).1.element_type = a.elt
        ∧ (allocate_tensor e a).1.device_type = a.device_type
        ∧ (allocate_tensor e a).1.is_persistent = a.is_persistent
        ∧ (allocate_tensor e a).1.is_constant = a.is_constant
        ∧ (allocate_tensor e a).1.is_parameter = a.is_parameter
        ∧ (allocate_tensor e a).1.is_RDMA_tensor = a.is_RDMA_tensor
        ∧ (allocate_tensor e a).1.group = a.group
        ∧ (allocate_tensor e a).1.device_id = a.device_id)
    ∧ (allocate_tensor e a).2.m_context.tensors.getLast? = some (allocate_tensor e a).1
    ∧ (e.m_context.tensor_names.length = e.m_context.tensors.length →
        (allocate_tensor e a).2.m_context.tensor_names.length
          = (allocate_tensor e a).2.m_context.tensors.length)
    ∧ (e.m_context.tensor_names = e.m_context.tensors.map (fun t => t.name) →
        (allocate_tensor e a).2.m_context.tensor_names
          = (allocate_tensor e a).2.m_context.tensors.map (fun t => t.name))
    ∧ (∀ (g : GNode) (e0 : KernelEmitter) (l : List AllocArgs),
        KernelContext.create g = .ok e0.m_context →
        (run_allocations e0 l).m_context.tensor_names
          = (run_allocations e0 l).m_context.tensors.map (fun t => t.name))
    ∧ ((allocate_tensor e a).2.m_context.inputs = e.m_context.inputs
        ∧ (allocate_tensor e a).2.m_context.outputs = e.m_context.outputs
        ∧ (allocate_tensor e a).2.m_context.input_names = e.m_context.input_names
        ∧ (allocate_tensor e a).2.m_context.output_names = e.m_context.output_names
        ∧ (allocate_tensor e a).2.m_context.dtypes = e.m_context.dtypes
        ∧ (allocate_tensor e a).2.m_context.gnode = e.m_context.gnode) := by
  refine ⟨rfl, rfl, ⟨rfl, rfl, rfl, rfl, rfl, rfl, rfl, rfl, rfl⟩, ?_, ?_,
    allocate_tensor_names_invariant e a, ?_, ⟨rfl, rfl, rfl, rfl, rfl, rfl⟩⟩
  · simp [allocate_tensor]
  · intro h
    simp [allocate_tensor, h]
  · intro g e0 l hctx
    apply run_allocations_names_invariant
    by_cases hn : none ∈ g.input_tensors ∨ none ∈ g.output_tensors
    · rw [KernelContext.create_fail g hn] at hctx
      cases hctx
    · rw [not_or] at hn
      rw [KernelContext.create_ok g hn.1 hn.2] at hctx
      simp only [Outcome.ok.injEq] at hctx
      rw [← hctx]
      rfl

/-- Witness of C13: an allocation by `sample_temp_emitter`, which holds one temporary. -/
theorem allocate_tensor_append_only_witness :
    (allocate_tensor sample_temp_emitter scratch_alloc).2.m_context.tensor_names
        = ["node3_temp0", "scratch"]
    ∧ (allocate_tensor sample_temp_emitter scratch_alloc).2.m_context.tensor_names
        = (allocate_tensor sample_temp_emitter scratch_alloc).2.m_context.tensors.map
            (fun t => t.name)
    ∧ (allocate_tensor sample_temp_emitter scratch_alloc).2.m_context.inputs
        = [sample_tensor "in0"] :=
  ⟨(allocate_tensor_append_only sample_temp_emitter scratch_alloc).2.1,
   (allocate_tensor_append_only sample_temp_emitter scratch_alloc).2.2.2.2.2.1 rfl,
   (allocate_tensor_append_only sample_temp_emitter scratch_alloc).2.2.2.2.2.2.2.1⟩

/-! ## Context construction (C16) -/

/-- C16: the constructor of `KernelContext` fails (a failed check) exactly when an input
or output tensor pointer of the node is null; when it succeeds the inputs and outputs are
the node's tensors in node order, the name lists are their names, the type tags are those
of the inputs followed by those of the outputs (`k + m` of them), and there is no
temporary. -/
theorem KernelContext_create_spec (g : GNode) :
    (KernelContext.create g = .check_failed
        ↔ (none ∈ g.input_tensors ∨ none ∈ g.output_tensors))
    ∧ KernelContext.create g ≠ .invalid_pointer
    ∧ ((none ∉ g.input_tensors ∧ none ∉ g.output_tensors) →
        ∃ ctx, KernelContext.create g = .ok ctx)
    ∧ (∀ ctx, KernelContext.create g = .ok ctx →
        ctx.gnode = g
        ∧ ctx.inputs.map some = g.input_tensors
        ∧ ctx.outputs.map some = g.output_tensors
        ∧ ctx.inputs.length = g.input_tensors.length
        ∧ ctx.input_names.length = g.input_tensors.length
        ∧ ctx.outputs.length = g.output_tensors.length
        ∧ ctx.output_names.length = g.output_tensors.length
        ∧ ctx.input_names = ctx.inputs.map (fun t => t.name)
        ∧ ctx.output_names = ctx.outputs.map (fun t => t.name)
        ∧ ctx.dtypes = ctx.inputs.map (fun t => t.element_type.c_type_string)
            ++ ctx.outputs.map (fun t => t.element_type.c_type_string)
        ∧ ctx.dtypes.length = g.input_tensors.length + g.output_tensors.length
        ∧ ctx.tensors = []
        ∧ ctx.tensor_names = []) := by
  by_cases hn : none ∈ g.input_tensors ∨ none ∈ g.output_tensors
  · have hf := KernelContext.create_fail g hn
    refine ⟨⟨fun _ => hn, fun _ => hf⟩, by rw [hf]; simp, fun h => ?_, fun ctx h => ?_⟩
    · exact absurd hn (not_or.mpr h)
    · rw [hf] at h; cases h
  · have hn2 := not_or.mp hn
    have hok := KernelContext.create_ok g hn2.1 hn2.2
    have hi := map_some_filterMap_id g.input_tensors hn2.1
    have ho := map_some_filterMap_id g.output_tensors hn2.2
    have hil : (g.input_tensors.filterMap id).length = g.input_tensors.length := by
      rw [← List.length_map (g.input_tensors.filterMap id) some, hi]
    have hol : (g.output_tensors.filterMap id).length = g.output_tensors.length := by
      rw [← List.length_map (g.output_tensors.filterMap id) some, ho]
    refine ⟨⟨fun h => ?_, fun h => absurd h hn⟩, by rw [hok]; simp, fun _ => ⟨_, hok⟩,
      fun ctx h => ?_⟩
    · rw [hok] at h; cases h
    · rw [hok] at h
      simp only [Outcome.ok.injEq] at h
      subst h
      simp [hi, ho, hil, hol]

/-- Witness of C16: the context of `sample_gnode` is `sample_context`, and the node with a
null input pointer gives a failed check. -/
theorem KernelContext_create_spec_witness :
    KernelContext.create sample_gnode = .ok sample_context
    ∧ sample_context.dtypes = ["float", "float"]
    ∧ none ∈ broken_gnode.input_tensors
    ∧ KernelContext.create broken_gnode = .check_failed :=
  ⟨rfl,
   ((KernelContext_create_spec sample_gnode).2.2.2 sample_context rfl).2.2.2.2.2.2.2.2.2.1,
   by decide,
   (KernelContext_create_spec broken_gnode).1.mpr (Or.inl (by decide))⟩

/-! ## Default temporary names (C12) -/

theorem toString_nat_data (n : Nat) : (toString n).data = Nat.toDigits 10 n := rfl

theorem digitChar_value (k : Nat) (h : k < 10) : (Nat.digitChar k).toNat - 48 = k := by
  interval_cases k <;> rfl

theorem digitChar_ne_p (k : Nat) (h : k < 10) : Nat.digitChar k ≠ 'p' := by
  interval_cases k <;> decide

theorem decode_toDigitsCore (fuel n : Nat) (ds : List Char) (h : n < fuel) :
    decode_digits 0 (Nat.toDigitsCore 10 fuel n ds) = decode_digits n ds := by
  induction fuel generalizing n ds with
  | zero => omega
  | succ fuel ih =>
    simp only [Nat.toDigitsCore]
    split
    · rename_i h0
      have hn : n % 10 = n := Nat.mod_eq_of_lt (by omega)
      have hv := digitChar_value (n % 10) (Nat.mod_lt _ (by decide))
      rw [hn] at hv
      simp [decode_digits, hn, hv]
    · rename_i h0
      rw [ih (n / 10) _ (by omega)]
      simp only [decode_digits, List.foldl_cons,
        digitChar_value (n % 10) (Nat.mod_lt _ (by decide))]
      congr 1
      omega

theorem toDigitsCore_chars (fuel n : Nat) (ds : List Char) (c : Char)
    (h : c ∈ Nat.toDigitsCore 10 fuel n ds) : c ∈ ds ∨ ∃ k, k < 10 ∧ c = Nat.digitChar k := by
  induction fuel generalizing n ds with
  | zero => left; simpa [Nat.toDigitsCore] using h
  | succ fuel ih =>
    simp only [Nat.toDigitsCore] at h
    split at h
    · rcases List.mem_cons.mp h with h | h
      · right; exact ⟨n % 10, Nat.mod_lt _ (by decide), h⟩
      · left; exact h
    · rcases ih _ _ h with h | h
      · rcases List.mem_cons.mp h with h | h
        · right; exact ⟨n % 10, Nat.mod_lt _ (by decide), h⟩
        · left; exact h
      · right; exact h

theorem toString_nat_injective (i j : Nat) (h : toString i = toString j) : i = j := by
  have hd := congrArg String.data h
  rw [toString_nat_data, toString_nat_data] at hd
  have hi := decode_toDigitsCore (i + 1) i [] (by omega)
  have hj := decode_toDigitsCore (j + 1) j [] (by omega)
  simp only [Nat.toDigits] at hd
  rw [hd, hj] at hi
  simpa [decode_digits] using hi.symm

theorem p_not_mem_toString (n : Nat) : 'p' ∉ (toString n).data := by
  intro h
  rw [toString_nat_data] at h
  rcases toDigitsCore_chars _ _ _ _ h with h | ⟨k, hk, h⟩
  · simp at h
  · exact digitChar_ne_p k hk h.symm

theorem char_split (c : Char) (a b x y : List Char) (ha : c ∉ a) (hb : c ∉ b)
    (h : a ++ c :: x = b ++ c :: y) : a = b ∧ x = y := by
  induction a generalizing b with
  | nil =>
    cases b with
    | nil => simpa using h
    | cons d ds =>
      simp only [List.nil_append, List.cons_append, List.cons.injEq] at h
      exact absurd (h.1 ▸ List.mem_cons_self _ _) hb
  | cons d ds ih =>
    cases b with
    | nil =>
      simp only [List.nil_append, List.cons_append, List.cons.injEq] at h
      exact absurd (h.1 ▸ List.mem_cons_self _ _) ha
    | cons f fs =>
      simp only [List.cons_append, List.cons.injEq] at h
      obtain ⟨h1, h2⟩ := ih fs (fun hm => ha (List.mem_cons_of_mem _ hm))
        (fun hm => hb (List.mem_cons_of_mem _ hm)) h.2
      exact ⟨by rw [h.1, h1], h2⟩

/-- The default names `u_temp<i>` are equal only for equal `u` and equal `i`. -/
theorem default_name_injective (u1 u2 : String) (i j : Nat)
    (h : u1 ++ "_" ++ ("temp" ++ toString i) = u2 ++ "_" ++ ("temp" ++ toString j)) :
    u1 = u2 ∧ i = j := by
  have hd := congrArg String.data h
  have ht : "temp".data = ['t', 'e', 'm', 'p'] := rfl
  have hu : "_".data = ['_'] := rfl
  simp only [String.data_append, ht, hu] at hd
  have hr := congrArg List.reverse hd
  simp only [List.reverse_append, List.reverse_cons, List.reverse_nil, List.nil_append,
    List.append_assoc, List.cons_append, List.singleton_append] at hr
  have hpi : 'p' ∉ (toString i).data.reverse := by
    rw [List.mem_reverse]; exact p_not_mem_toString i
  have hpj : 'p' ∉ (toString j).data.reverse := by
    rw [List.mem_reverse]; exact p_not_mem_toString j
  obtain ⟨h1, h2⟩ := char_split 'p' _ _ _ _ hpi hpj hr
  have hij : toString i = toString j := String.ext (List.reverse_injective h1)
  simp only [List.cons.injEq, true_and] at h2
  exact ⟨String.ext (List.reverse_injective h2), toString_nat_injective i j hij⟩

/-- C12: two allocations without an explicit name, on emitters of node unique ids `u1`, `u2`
holding `i` and `j` temporaries, get the same name if and only if `u1 = u2` and `i = j`,
whatever the strings `u1` and `u2` are. -/
theorem allocate_tensor_default_name_unique (e1 e2 : KernelEmitter) (a1 a2 : AllocArgs)
    (h1 : a1.name = "") (h2 : a2.name = "") :
    (allocate_tensor e1 a1).1.name = (allocate_tensor e2 a2).1.name
      ↔ (e1.m_context.gnode.unique_name = e2.m_context.gnode.unique_name
          ∧ e1.m_context.tensors.length = e2.m_context.tensors.length) := by
  simp only [allocate_tensor, h1, h2, if_true]
  constructor
  · intro h
    exact default_name_injective _ _ _ _ h
  · intro h
    rw [h.1, h.2]

/-- Witness of C12: for the nodes `a_temp1` and `a`, both without temporaries, the default
names `a_temp1_temp0` and `a_temp0` differ, as the unique ids do. -/
theorem allocate_tensor_default_name_unique_witness :
    sample_alloc.name = ""
    ∧ (allocate_tensor (sample_emitter_of "cuda" "a_temp1") sample_alloc).1.name
        = "a_temp1_temp0"
    ∧ ((allocate_tensor (sample_emitter_of "cuda" "a_temp1") sample_alloc).1.name
          = (allocate_tensor (sample_emitter_of "cuda" "a") sample_alloc).1.name
        ↔ ((sample_emitter_of "cuda" "a_temp1").m_context.gnode.unique_name
              = (sample_emitter_of "cuda" "a").m_context.gnode.unique_name
            ∧ (sample_emitter_of "cuda" "a_temp1").m_context.tensors.length
              = (sample_emitter_of "cuda" "a").m_context.tensors.length)) :=
  ⟨rfl, by decide,
   allocate_tensor_default_name_unique (sample_emitter_of "cuda" "a_temp1")
     (sample_emitter_of "cuda" "a") sample_alloc sample_alloc rfl rfl⟩

/-! ## Call site (C14, C15, C19) -/

theorem stream_arguments_ok (sig_code : String) (stream : Stream)
    (hdnn : find sig_code "cudnnHandle_t" ≠ none →
      stream.binding_symbol.lookup "cudnn_handle" ≠ none)
    (hblas : find sig_code "cublasHandle_t" ≠ none →
      stream.binding_symbol.lookup "cublas_handle" ≠ none) :
    stream_arguments sig_code stream = .ok (call_site_leading_spec sig_code stream) := by
  unfold stream_arguments call_site_leading_spec handle_argument
  by_cases h1 : find sig_code "cudnnHandle_t" ≠ none
  · obtain ⟨v1, hv1⟩ := Option.ne_none_iff_exists'.mp (hdnn h1)
    by_cases h2 : find sig_code "cublasHandle_t" ≠ none
    · obtain ⟨v2, hv2⟩ := Option.ne_none_iff_exists'.mp (hblas h2)
      simp only [if_pos h1, if_pos h2, hv1, hv2, Option.getD_some, String.append_assoc]
    · simp only [if_pos h1, if_neg h2, hv1, Option.getD_some, String.append_assoc,
        String.append_empty]
  · by_cases h2 : find sig_code "cublasHandle_t" ≠ none
    · obtain ⟨v2, hv2⟩ := Option.ne_none_iff_exists'.mp (hblas h2)
      simp only [if_neg h1, if_pos h2, hv2, Option.getD_some, String.append_assoc,
        String.empty_append]
    · simp only [if_neg h1, if_neg h2, String.append_empty]

theorem stream_arguments_missing (sig_code : String) (stream : Stream)
    (h : (find sig_code "cudnnHandle_t" ≠ none
          ∧ stream.binding_symbol.lookup "cudnn_handle" = none)
        ∨ (find sig_code "cublasHandle_t" ≠ none
          ∧ stream.binding_symbol.lookup "cublas_handle" = none)) :
    stream_arguments sig_code stream = .check_failed := by
  unfold stream_arguments handle_argument
  by_cases h1 : find sig_code "cudnnHandle_t" ≠ none
  · cases hv1 : stream.binding_symbol.lookup "cudnn_handle" with
    | none => simp only [if_pos h1, hv1]
    | some v1 =>
      rcases h with h | h
      · rw [hv1] at h; exact absurd h.2 (by simp)
      · simp only [if_pos h1, if_pos h.1, h.2, hv1]
  · rcases h with h | h
    · exact absurd h.1 h1
    · simp only [if_neg h1, if_pos h.1, h.2]

theorem emit_function_call_text (e : KernelEmitter) (s : Store) (leading : String)
    (h : leading_arguments e s = .ok leading) :
    ∃ u s1, emit_function_call e s = .ok (u, s1)
      ∧ u.symbol = e.m_kernel_name ++ "_call"
      ∧ u.code = call_site_text_spec e leading := by
  refine ⟨_, _, emit_function_call_eq e s leading h, rfl, ?_⟩
  simp [call_site_text_spec, String.append_assoc]

/-- C14, as stated, fails: after its first emission `stream_emitter` holds the artifact 0,
whose signature text names `cudnnHandle_t`, and its stream binds no handle; the call-site
generation then yields no text but a failed check. So it does for an emitter without binding
that holds an artifact without signature unit, where the claim has an empty `L`. -/
theorem emit_function_call_fails_instead_of_text :
    stream_emitted_emitter.m_function_unit = some 0
    ∧ ((stream_emitted_store.functions[0]?).bind (fun fu => fu.signature_unit)).map
        (fun u => u.code)
        = some "void (float* input0, float* output0, float* cudnnHandle_t_workspace)"
    ∧ stream_emitted_emitter.m_context.gnode.async_info
        = some { execution_stream := some { name := "stream0", binding_symbol := [] } }
    ∧ emit_function_call stream_emitted_emitter stream_emitted_store = Outcome.check_failed
    ∧ holding_emitter.m_context.gnode.async_info = none
    ∧ emit_function_call holding_emitter empty_artifact_store = Outcome.check_failed := by
  decide

/-- C14, amended: `emit_function_call` yields `(` + `L` + the input, output and temporary
names joined by `, ` + `);` and a newline, with `L` empty when the emitter holds no
artifact; when it holds an artifact that has a signature unit, `L` is empty if the node has
no valid binding or no execution stream, and otherwise, provided the binding has every
handle the signature text names, `L` is the stream name, `binding["cudnn_handle"]` and
`binding["cublas_handle"]`, each followed by `, ` and each present if the signature text
contains `cudaStream_t`, `cudnnHandle_t` and `cublasHandle_t` respectively. -/
theorem emit_function_call_text_spec (e : KernelEmitter) (s : Store) :
    (e.m_function_unit = none →
        ∃ u s1, emit_function_call e s = .ok (u, s1)
          ∧ u.symbol = e.m_kernel_name ++ "_call"
          ∧ u.code = call_site_text_spec e "")
    ∧ (∀ (p : Nat) (fu : FunctionUnit) (sig : LanguageUnit),
        e.m_function_unit = some p → s.functions[p]? = some fu →
        fu.signature_unit = some sig →
        ((e.m_context.gnode.async_info = none
            ∨ e.m_context.gnode.async_info = some { execution_stream := none }) →
          ∃ u s1, emit_function_call e s = .ok (u, s1)
            ∧ u.symbol = e.m_kernel_name ++ "_call"
            ∧ u.code = call_site_text_spec e "")
        ∧ (∀ (stream : Stream),
            e.m_context.gnode.async_info = some { execution_stream := some stream } →
            (find sig.code "cudnnHandle_t" ≠ none →
              stream.binding_symbol.lookup "cudnn_handle" ≠ none) →
            (find sig.code "cublasHandle_t" ≠ none →
              stream.binding_symbol.lookup "cublas_handle" ≠ none) →
            ∃ u s1, emit_function_call e s = .ok (u, s1)
              ∧ u.symbol = e.m_kernel_name ++ "_call"
              ∧ u.code = call_site_text_spec e (call_site_leading_spec sig.code stream))) := by
  refine ⟨fun hu => ?_, fun p fu sig hu hf hsig => ⟨fun hb => ?_, fun stream hst hdnn hblas => ?_⟩⟩
  · apply emit_function_call_text
    simp only [leading_arguments, hu]
  · apply emit_function_call_text
    rcases hb with hb | hb <;> simp only [leading_arguments, hu, hf, hsig, hb]
  · apply emit_function_call_text
    simp only [leading_arguments, hu, hf, hsig, hst]
    exact stream_arguments_ok sig.code stream hdnn hblas

/-- Witness of C14 amended: the emitter `bound_emitted_emitter` holds the artifact 0, whose
signature text names `cudnnHandle_t`, and its stream binds both handles. -/
theorem emit_function_call_text_spec_witness :
    bound_emitted_emitter.m_function_unit = some 0
    ∧ (∃ u s1, emit_function_call bound_emitted_emitter stream_emitted_store = .ok (u, s1)
        ∧ u.symbol = bound_emitted_emitter.m_kernel_name ++ "_call"
        ∧ u.code = call_site_text_spec bound_emitted_emitter
            (call_site_leading_spec
              "void (float* input0, float* output0, float* cudnnHandle_t_workspace)"
              bound_stream))
    ∧ call_site_text_spec bound_emitted_emitter
        (call_site_leading_spec
          "void (float* input0, float* output0, float* cudnnHandle_t_workspace)" bound_stream)
        = "(cudnn_handle_0, in0, out0, cudnnHandle_t_workspace);\n" :=
  ⟨rfl,
   ((emit_function_call_text_spec bound_emitted_emitter stream_emitted_store).2 0
      { name_unit := (stream_emitted_store.functions.getD 0 {}).name_unit,
        signature_unit := some
          { addr := 1, symbol := "Add_float_float_simple_node3_sig",
            code := "void (float* input0, float* output0, float* cudnnHandle_t_workspace)",
            required := [], local_symbol := [] },
        body_unit := (stream_emitted_store.functions.getD 0 {}).body_unit,
        call_unit := (stream_emitted_store.functions.getD 0 {}).call_unit,
        dep_unit := (stream_emitted_store.functions.getD 0 {}).dep_unit,
        comment_unit := (stream_emitted_store.functions.getD 0 {}).comment_unit }
      { addr := 1, symbol := "Add_float_float_simple_node3_sig",
        code := "void (float* input0, float* output0, float* cudnnHandle_t_workspace)",
        required := [], local_symbol := [] }
      rfl rfl rfl).2 bound_stream rfl (fun _ => by decide) (fun _ => by decide),
   by decide⟩

/-- C15, as stated, fails: the signature text of `stream_emitter` names `cudnnHandle_t`
and its stream binds no `cudnn_handle`, yet the first full emission succeeds, and its call
unit is `(in0, out0, cudnnHandle_t_workspace);` without a handle argument. -/
theorem first_emission_skips_handle_check :
    stream_emitter.m_context.gnode.async_info
        = some { execution_stream := some { name := "stream0", binding_symbol := [] } }
    ∧ returned_pointer (get_or_emit_source plain_hooks false stream_emitter sample_store)
        = some (some 0)
    ∧ ((returned_artifact (get_or_emit_source plain_hooks false stream_emitter sample_store)).bind
        (fun fu => fu.signature_unit)).map
        (fun u => decide (find u.code "cudnnHandle_t" ≠ none)) = some true
    ∧ ((returned_artifact (get_or_emit_source plain_hooks false stream_emitter sample_store)).bind
        (fun fu => fu.call_unit)).map (fun u => u.code)
        = some "(in0, out0, cudnnHandle_t_workspace);\n" := by
  decide

/-- C15, amended: when the emitter holds an artifact (as at every refresh after the first
emission) whose signature text names `cudnnHandle_t` (respectively `cublasHandle_t`) and the
stream assigned to the node does not bind `cudnn_handle` (respectively `cublas_handle`),
the call-site generation, and with it the refresh, stops at a failed check and returns no
call unit; while the emitter holds no artifact, as during the first full emission, the call
site is generated without any check and without leading arguments. -/
theorem emit_function_call_missing_binding (h : Hooks) (e : KernelEmitter) (s : Store) :
    (∀ (p : Nat) (fu : FunctionUnit) (sig : LanguageUnit) (stream : Stream),
        e.m_function_unit = some p → s.functions[p]? = some fu →
        fu.signature_unit = some sig →
        e.m_context.gnode.async_info = some { execution_stream := some stream } →
        ((find sig.code "cudnnHandle_t" ≠ none
            ∧ stream.binding_symbol.lookup "cudnn_handle" = none)
          ∨ (find sig.code "cublasHandle_t" ≠ none
            ∧ stream.binding_symbol.lookup "cublas_handle" = none)) →
        emit_function_call e s = .check_failed
        ∧ (e.m_is_emitted = true → get_or_emit_source h true e s = .check_failed))
    ∧ (e.m_function_unit = none →
        ∃ u s1, emit_function_call e s = .ok (u, s1)
          ∧ u.code = call_site_text_spec e "") := by
  constructor
  · intro p fu sig stream hu hf hsig hst hmiss
    have hl : leading_arguments e s = .check_failed := by
      simp only [leading_arguments, hu, hf, hsig, hst]
      exact stream_arguments_missing sig.code stream hmiss
    have hc : emit_function_call e s = .check_failed := by
      simp only [emit_function_call, new_LanguageUnit, hl]
    refine ⟨hc, fun hem => ?_⟩
    simp only [get_or_emit_source, hem, if_true, hc]
  · intro hu
    obtain ⟨u, s1, h1, _, h3⟩ := emit_function_call_text e s "" (by
      simp only [leading_arguments, hu])
    exact ⟨u, s1, h1, h3⟩

/-- Witness of C15 amended: the refresh of `stream_emitter` after its first emission. -/
theorem emit_function_call_missing_binding_witness :
    stream_emitted_emitter.m_function_unit = some 0
    ∧ stream_emitted_emitter.m_is_emitted = true
    ∧ emit_function_call stream_emitted_emitter stream_emitted_store = .check_failed
    ∧ get_or_emit_source plain_hooks true stream_emitted_emitter stream_emitted_store
        = .check_failed :=
  ⟨rfl, rfl,
   ((emit_function_call_missing_binding plain_hooks stream_emitted_emitter
      stream_emitted_store).1 0 (stream_emitted_store.functions.getD 0 {})
      { addr := 1, symbol := "Add_float_float_simple_node3_sig",
        code := "void (float* input0, float* output0, float* cudnnHandle_t_workspace)",
        required := [], local_symbol := [] }
      { name := "stream0", binding_symbol := [] }
      rfl rfl rfl rfl (Or.inl ⟨by decide, rfl⟩)).1,
   ((emit_function_call_missing_binding plain_hooks stream_emitted_emitter
      stream_emitted_store).1 0 (stream_emitted_store.functions.getD 0 {})
      { addr := 1, symbol := "Add_float_float_simple_node3_sig",
        code := "void (float* input0, float* output0, float* cudnnHandle_t_workspace)",
        required := [], local_symbol := [] }
      { name := "stream0", binding_symbol := [] }
      rfl rfl rfl rfl (Or.inl ⟨by decide, rfl⟩)).2 rfl⟩

/-- C19: call-site generation reads the emitter and the artifacts only: a second invocation,
on the store the first one left or on any store with the same artifacts, produces a call
unit with the same identifier and text (or stops at the same fault); the first invocation
changes nothing of the store but the next free address; and a refresh through
`get_or_emit_source(true)` leaves the whole emitter (context, kernel name and the binding
map of its node) as it was. -/
theorem emit_function_call_idempotent (e : KernelEmitter) (s : Store) :
    (∀ (s2 : Store), s2.functions = s.functions →
        call_outcome_text (emit_function_call e s2) = call_outcome_text (emit_function_call e s))
    ∧ (∀ (u : LanguageUnit) (s1 : Store), emit_function_call e s = .ok (u, s1) →
        s1 = { s with next_addr := s.next_addr + 1 }
        ∧ ∃ u2 s2, emit_function_call e s1 = .ok (u2, s2)
            ∧ u2.symbol = u.symbol ∧ u2.code = u.code)
    ∧ (∀ (h : Hooks) (r : FunctionUnit_p) (e2 : KernelEmitter) (s2 : Store),
        e.m_is_emitted = true → get_or_emit_source h true e s = .ok (r, e2, s2) →
        e2 = e) := by
  have hframe : ∀ (s2 : Store), s2.functions = s.functions →
      call_outcome_text (emit_function_call e s2)
        = call_outcome_text (emit_function_call e s) := by
    intro s2 hs2
    have hl := leading_arguments_congr e e s s2 rfl rfl hs2
    cases hr : leading_arguments e s with
    | ok leading =>
      rw [emit_function_call_eq e s leading hr, emit_function_call_eq e s2 leading (hl.trans hr)]
      rfl
    | check_failed =>
      rw [hr] at hl
      simp only [emit_function_call, new_LanguageUnit, hr, hl]
    | invalid_pointer =>
      rw [hr] at hl
      simp only [emit_function_call, new_LanguageUnit, hr, hl]
  refine ⟨hframe, fun u s1 hcall => ?_, fun h r e2 s2 hem hres => ?_⟩
  · have hs1 := emit_function_call_store e s s1 u hcall
    refine ⟨hs1, ?_⟩
    have h2 := hframe s1 (by rw [hs1])
    rw [hcall] at h2
    cases hr2 : emit_function_call e s1 with
    | ok t =>
      obtain ⟨u2, s2⟩ := t
      rw [hr2] at h2
      simp only [call_outcome_text, Outcome.ok.injEq, Prod.mk.injEq] at h2
      exact ⟨u2, s2, rfl, h2.1, h2.2⟩
    | check_failed => rw [hr2] at h2; simp [call_outcome_text] at h2
    | invalid_pointer => rw [hr2] at h2; simp [call_outcome_text] at h2
  · unfold get_or_emit_source at hres
    simp only [hem, if_true] at hres
    split at hres
    · cases hres
    · cases hres
    · split at hres
      · cases hres
      · split at hres
        · cases hres
        · simp only [Outcome.ok.injEq, Prod.mk.injEq] at hres
          exact hres.2.1.symm

/-- Witness of C19: two call-site generations by `emitted_emitter` give the unit
`Add_float_float_simple_node3_call` with the text `(in0, out0, node3_temp0);`. -/
theorem emit_function_call_idempotent_witness :
    emit_function_call emitted_emitter emitted_store
        = .ok (refreshed_call_unit, { emitted_store with next_addr := 7 })
    ∧ (∃ u2 s2, emit_function_call emitted_emitter { emitted_store with next_addr := 7 }
          = .ok (u2, s2)
        ∧ u2.symbol = refreshed_call_unit.symbol ∧ u2.code = refreshed_call_unit.code) :=
  ⟨rfl,
   ((emit_function_call_idempotent emitted_emitter emitted_store).2.1 refreshed_call_unit
      { emitted_store with next_addr := 7 } rfl).2⟩

/-! ## Merge step (C18) -/

theorem emit_function_name_code_ne_empty (e : KernelEmitter) (s : Store) :
    (emit_function_name e s).1.code ≠ "" := by
  intro h
  have hd := congrArg String.data h
  rw [emit_function_name_data] at hd
  cases hop : e.m_context.gnode.op_type.data <;> simp [chain, hop] at hd

theorem compute_kernel_name_name (fu : FunctionUnit) (e : KernelEmitter) (s : Store) :
    (compute_kernel_name fu e s).2.1.m_kernel_name ≠ ""
    ∧ (e.m_kernel_name ≠ "" → (compute_kernel_name fu e s).2.1.m_kernel_name = e.m_kernel_name) := by
  unfold compute_kernel_name
  split
  · rename_i h0
    exact ⟨emit_function_name_code_ne_empty e s, fun hne => absurd h0 hne⟩
  · rename_i h0
    exact ⟨h0, fun _ => rfl⟩

theorem emit_units_frame (h : Hooks) (fu : FunctionUnit) (e e2 : KernelEmitter)
    (s s2 : Store) (r : FunctionUnit_p) (hr : emit_units h fu e s = .ok (r, e2, s2)) :
    e2.m_kernel_name = e.m_kernel_name ∧ s2.body_hook_calls = s.body_hook_calls + 1 := by
  have hfr := run_allocations_frame e (h.emit_function_body e).allocations
  unfold emit_units at hr
  simp only [emit_function_signature, new_LanguageUnit, place_unit, emit_comments,
    LanguageUnit.require] at hr
  split at hr
  · simp only [Outcome.ok.injEq, Prod.mk.injEq] at hr
    rw [← hr.2.1, ← hr.2.2]
    exact ⟨hfr.2.2.1, rfl⟩
  · split at hr
    · cases hr
    · cases hr
    · rename_i cu s1 hcall
      have hs1 := emit_function_call_store _ _ _ _ hcall
      split at hr
      · cases hr
      · simp only [Outcome.ok.injEq, Prod.mk.injEq] at hr
        rw [← hr.2.1, ← hr.2.2, hs1]
        exact ⟨(run_allocations_frame _ _).2.2.1.trans hfr.2.2.1, rfl⟩

theorem emit_source_frame (h : Hooks) (e e2 : KernelEmitter)
    (s s2 : Store) (r : FunctionUnit_p) (hr : emit_source h e s = .ok (r, e2, s2)) :
    e2.m_kernel_name ≠ ""
    ∧ (e.m_kernel_name ≠ "" → e2.m_kernel_name = e.m_kernel_name)
    ∧ s2.body_hook_calls ≤ s.body_hook_calls + 1 := by
  have hfr := compute_kernel_name_frame {} e s
  have hname := compute_kernel_name_name {} e s
  unfold emit_source at hr
  simp only at hr
  split at hr
  · split at hr
    · cases hr
    · simp only [Outcome.ok.injEq, Prod.mk.injEq] at hr
      rw [← hr.2.1, ← hr.2.2, hfr.2.2.2.2.2]
      exact ⟨hname.1, hname.2, Nat.le_succ _⟩
  · obtain ⟨h1, h2⟩ := emit_units_frame h _ _ _ _ _ _ hr
    rw [h1, h2, hfr.2.2.2.2.2]
    exact ⟨hname.1, hname.2, Nat.le_refl _⟩

/-- One successful call of `get_or_emit_source`. -/
theorem get_or_emit_source_step (h : Hooks) (b : Bool) (e e2 : KernelEmitter)
    (s s2 : Store) (r : FunctionUnit_p) (hr : get_or_emit_source h b e s = .ok (r, e2, s2)) :
    e2.m_is_emitted = true
    ∧ (e.m_kernel_name ≠ "" → e2.m_kernel_name = e.m_kernel_name)
    ∧ (e.m_is_emitted = false → e2.m_kernel_name ≠ "")
    ∧ s2.body_hook_calls ≤ s.body_hook_calls + 1
    ∧ (e.m_is_emitted = true → e2 = e ∧ s2.body_hook_calls = s.body_hook_calls) := by
  unfold get_or_emit_source at hr
  split at hr
  · rename_i hem
    have hkeep : e2 = e ∧ s2.body_hook_calls = s.body_hook_calls := by
      split at hr
      · split at hr
        · cases hr
        · cases hr
        · rename_i cu s1 hcall
          have hs1 := emit_function_call_store _ _ _ _ hcall
          split at hr
          · cases hr
          · split at hr
            · cases hr
            · simp only [Outcome.ok.injEq, Prod.mk.injEq] at hr
              rw [← hr.2.1, ← hr.2.2, hs1]
              exact ⟨rfl, rfl⟩
      · simp only [Outcome.ok.injEq, Prod.mk.injEq] at hr
        rw [← hr.2.1, ← hr.2.2]
        exact ⟨rfl, rfl⟩
    obtain ⟨hk1, hk2⟩ := hkeep
    subst hk1
    refine ⟨hem, fun _ => rfl, fun hne => ?_, by rw [hk2]; exact Nat.le_succ _,
      fun _ => ⟨rfl, hk2⟩⟩
    rw [hem] at hne
    cases hne
  · rename_i hem
    split at hr
    · cases hr
    · cases hr
    · rename_i r1 e1 s1 hsrc
      simp only [Outcome.ok.injEq, Prod.mk.injEq] at hr
      obtain ⟨h1, h2, h3⟩ := emit_source_frame h _ _ _ _ _ hsrc
      rw [← hr.2.1, ← hr.2.2]
      exact ⟨rfl, h2, fun _ => h1, h3, fun ht => absurd ht hem⟩

theorem run_calls_emitted (h : Hooks) (calls : List Bool) (e e2 : KernelEmitter)
    (s s2 : Store) (hem : e.m_is_emitted = true)
    (hr : run_calls h calls e s = .ok (e2, s2)) :
    e2 = e ∧ s2.body_hook_calls = s.body_hook_calls := by
  induction calls generalizing s with
  | nil =>
    simp only [run_calls, Outcome.ok.injEq, Prod.mk.injEq] at hr
    exact ⟨hr.1.symm, by rw [hr.2]⟩
  | cons b rest ih =>
    simp only [run_calls] at hr
    split at hr
    · rename_i r1 e1 s1 hstep
      obtain ⟨he1, hs1⟩ := (get_or_emit_source_step h b e e1 s s1 _ hstep).2.2.2.2 hem
      subst he1
      obtain ⟨h1, h2⟩ := ih s1 hr
      exact ⟨h1, h2.trans hs1⟩
    · cases hr
    · cases hr

theorem run_calls_append (h : Hooks) (calls1 calls2 : List Bool) (e e1 : KernelEmitter)
    (s s1 : Store) (h1 : run_calls h calls1 e s = .ok (e1, s1)) :
    run_calls h (calls1 ++ calls2) e s = run_calls h calls2 e1 s1 := by
  induction calls1 generalizing e s with
  | nil =>
    simp only [run_calls, Outcome.ok.injEq, Prod.mk.injEq] at h1
    rw [List.nil_append, h1.1, h1.2]
  | cons b rest ih =>
    cases hstep : get_or_emit_source h b e s with
    | ok t =>
      obtain ⟨r1, e0, s0⟩ := t
      simp only [run_calls, List.cons_append, hstep] at h1 ⊢
      exact ih e0 s0 h1
    | check_failed => simp [run_calls, hstep] at h1
    | invalid_pointer => simp [run_calls, hstep] at h1

theorem run_calls_frame (h : Hooks) (calls : List Bool) (e e2 : KernelEmitter)
    (s s2 : Store) (hr : run_calls h calls e s = .ok (e2, s2)) :
    (e.m_is_emitted = true → e2.m_is_emitted = true)
    ∧ (calls ≠ [] → e2.m_is_emitted = true)
    ∧ (e.m_kernel_name ≠ "" → e2.m_kernel_name = e.m_kernel_name)
    ∧ (calls ≠ [] → e.m_is_emitted = false → e2.m_kernel_name ≠ "")
    ∧ s2.body_hook_calls ≤ s.body_hook_calls + 1 := by
  cases calls with
  | nil =>
    simp only [run_calls, Outcome.ok.injEq, Prod.mk.injEq] at hr
    rw [← hr.1, ← hr.2]
    exact ⟨fun x => x, fun x => absurd rfl x, fun _ => rfl, fun x => absurd rfl x,
      Nat.le_succ _⟩
  | cons b rest =>
    simp only [run_calls] at hr
    split at hr
    · rename_i r1 e1 s1 hstep
      obtain ⟨g1, g2, g3, g4, _⟩ := get_or_emit_source_step h b e e1 s s1 _ hstep
      obtain ⟨k1, k2⟩ := run_calls_emitted h rest e1 e2 s1 s2 g1 hr
      subst k1
      rw [k2]
      exact ⟨fun _ => g1, fun _ => g1, g2, fun _ => g3, g4⟩
    · cases hr
    · cases hr

/-- C17: over a sequence of `get_or_emit_source` calls by one emitter (a fault ends the
sequence), with any values of `emit_func_call`: once `m_is_emitted` is true it is true after
every later call, and it is true after the first call; once the kernel name is computed
(non-empty) it is the same after every later call, and it is computed by the first call of
an Unemitted emitter; and the body-generation hook is invoked at most once over the whole
sequence. -/
theorem get_or_emit_source_emitted_terminal (h : Hooks) (calls1 calls2 : List Bool)
    (e e1 e2 : KernelEmitter) (s s1 s2 : Store)
    (h1 : run_calls h calls1 e s = .ok (e1, s1))
    (h2 : run_calls h calls2 e1 s1 = .ok (e2, s2)) :
    run_calls h (calls1 ++ calls2) e s = .ok (e2, s2)
    ∧ (e1.m_is_emitted = true → e2.m_is_emitted = true)
    ∧ (calls1 ≠ [] → e1.m_is_emitted = true)
    ∧ (e1.m_kernel_name ≠ "" → e2.m_kernel_name = e1.m_kernel_name)
    ∧ (calls1 ≠ [] → e.m_is_emitted = false → e1.m_kernel_name ≠ "")
    ∧ s2.body_hook_calls ≤ s.body_hook_calls + 1 := by
  have happ := (run_calls_append h calls1 calls2 e e1 s s1 h1).trans h2
  have f1 := run_calls_frame h calls1 e e1 s s1 h1
  have f2 := run_calls_frame h calls2 e1 e2 s1 s2 h2
  have f12 := run_calls_frame h (calls1 ++ calls2) e e2 s s2 happ
  exact ⟨happ, f2.1, f1.2.1, f2.2.2.1, f1.2.2.2.1, f12.2.2.2.2⟩

/-- Witness of C17: four calls of `sample_emitter`; the emitter is Emitted after two and
after four, the kernel name is the same, and the body hook has run once. -/
theorem get_or_emit_source_emitted_terminal_witness :
    run_calls sample_hooks [false, true] sample_emitter sample_store
        = .ok (after_two_calls.1, after_two_calls.2)
    ∧ run_calls sample_hooks [true, false] after_two_calls.1 after_two_calls.2
        = .ok (after_four_calls.1, after_four_calls.2)
    ∧ after_two_calls.1.m_is_emitted = true
    ∧ after_two_calls.1.m_kernel_name = "Add_float_float_simple_node3"
    ∧ after_four_calls.1.m_is_emitted = true
    ∧ after_four_calls.1.m_kernel_name = after_two_calls.1.m_kernel_name
    ∧ after_four_calls.2.body_hook_calls ≤ sample_store.body_hook_calls + 1
    ∧ after_four_calls.2.body_hook_calls = 1 :=
  ⟨rfl, rfl, rfl, by decide,
   (get_or_emit_source_emitted_terminal sample_hooks [false, true] [true, false]
      sample_emitter after_two_calls.1 after_four_calls.1
      sample_store after_two_calls.2 after_four_calls.2 rfl rfl).2.1 rfl,
   (get_or_emit_source_emitted_terminal sample_hooks [false, true] [true, false]
      sample_emitter after_two_calls.1 after_four_calls.1
      sample_store after_two_calls.2 after_four_calls.2 rfl rfl).2.2.2.1 (by decide),
   (get_or_emit_source_emitted_terminal sample_hooks [false, true] [true, false]
      sample_emitter after_two_calls.1 after_four_calls.1
      sample_store after_two_calls.2 after_four_calls.2 rfl rfl).2.2.2.2.2,
   by decide⟩

end nnfusion
